import Mathlib

/-!
# USB storage module (`source/usb-module/main.c`): request dispatch and routing

A shallow embedding of the three functions of `main.c` that carry the protocol
logic: the vectored-I/O dispatcher `__USB_Ioctlv`, the asynchronous event
router `__USB_Callback`, and the body of the `while (1)` service loop of `main`.

Conventions of the embedding.

* `u32` values are natural numbers; a 32-bit load reduces modulo `2^32`, a
  conversion to `s32` reinterprets the 32-bit pattern as two's complement.
* `s32` values are integers.
* The numeric constants of the headers (`IOCTL_*`, `IOS_*`, `MESSAGE_*`,
  `IPC_*`, `DEVICE_NAME`) are not part of `main.c`; they are the fields of
  `Consts`, a parameter of every function.
* The functions of other translation units (storage layer, disc-image layer,
  gating policy, notifiers) are the fields of `Collab`.  Each one acts on the
  `World` outside the module (memory and device state) and returns a C scalar.
  The two variables defined in `main.c` (`current_drive`, `usbCb`) are not
  written by a collaborator call; `current_drive` is written only by the code
  embedded here, and the reply slots of `usbCb` are filled from outside while
  the loop is blocked in `os_message_queue_receive` (see `Arrival`).
* Every call that leaves `main.c` is appended to `State.trace`.

The file holds two embeddings of the same three functions. The first (`State`,
`__USB_Ioctlv`, `__USB_Callback`, `main_loop_body`) keeps the module's variables
apart from the memory that client pointers address and records the coherency
calls without giving them an effect; it carries the results on statuses,
routing and acknowledgments. The second (`Machine` and the namespace `Addr`)
places the variables in memory at the addresses of a `Layout` and makes the
coherency calls collaborators; it carries the results on what can overwrite
`current_drive` and the reply slots and on what the declared counts can change.
-/

namespace UsbModule

/-! ## Machine integers and memory -/

/-- Conversion of a `u32` to `s32`: same 32-bit pattern, read as two's complement. -/
def toS32 (v : Nat) : Int :=
  if v % 2 ^ 32 < 2 ^ 31 then ((v % 2 ^ 32 : Nat) : Int)
  else ((v % 2 ^ 32 : Nat) : Int) - 2 ^ 32

/-- The C operator `!` on a scalar. -/
def lnot (x : Int) : Int := if x = 0 then 1 else 0

/-- Memory as seen through `u32 *` accesses: the 32-bit object stored at each address. -/
abbrev Mem := Nat → Nat

/-- The read `*(u32 *)p`. -/
def load32 (m : Mem) (p : Nat) : Nat := m p % 2 ^ 32

/-- The write `*(u32 *)p = v`. -/
def store32 (m : Mem) (p v : Nat) : Mem :=
  fun a => if a = p then v % 2 ^ 32 else m a

/-- The C function `strcmp`, up to the magnitude of a nonzero result. -/
def strcmp (a b : String) : Int :=
  if a = b then 0 else if a < b then -1 else 1

/-! ## Data model -/

/-- One entry of a buffer vector: `vector[i].data` and `vector[i].len`. -/
structure ioctlv where
  data : Nat
  len : Nat
deriving DecidableEq, Repr

/-- An asynchronous reply slot; `main.c` reads only its `result` field. -/
structure areply where
  result : Int
deriving DecidableEq, Repr

/-- The object a message pointer refers to. The members of the C union that
`main` reads are separate fields here. -/
structure ipcmessage where
  command : Nat
  open_device : String
  open_resultfd : Int
  ioctlv_command : Nat
  ioctlv_num_in : Nat
  ioctlv_num_io : Nat
  ioctlv_vector : Nat → ioctlv

/-- What `os_message_queue_receive` delivers: the pointer value stored into
`message`, and the object it refers to when it is a request. -/
structure Received where
  message : Nat
  deref : ipcmessage

/-- The constants `main.c` takes from its headers. -/
structure Consts where
  IPC_EINVAL : Int
  IPC_ENOENT : Int
  IOCTL_USB_INIT : Nat
  IOCTL_UMS_INIT : Nat
  IOCTL_USB_READ : Nat
  IOCTL_UMS_READ_SECTORS : Nat
  IOCTL_USB_WRITE : Nat
  IOCTL_UMS_WRITE_SECTORS : Nat
  IOCTL_UMS_GET_CAPACITY : Nat
  IOCTL_USB_ISINSERTED : Nat
  IOCTL_USB_UNMOUNT : Nat
  IOCTL_UMS_SET_DRIVE : Nat
  IOCTL_WBFS_OPEN_DISC : Nat
  IOCTL_WBFS_READ_DISC : Nat
  MESSAGE_DEVCHANGE : Nat
  MESSAGE_ATTACH : Nat
  MESSAGE_MOUNT : Nat
  IOS_OPEN : Nat
  IOS_CLOSE : Nat
  IOS_IOCTLV : Nat
  DEVICE_NAME : String

/-- The case labels of the `switch (cmd)` of `__USB_Ioctlv`, in source order. -/
def Consts.ioctlLabels (K : Consts) : List Nat :=
  [K.IOCTL_USB_INIT, K.IOCTL_UMS_INIT, K.IOCTL_USB_READ, K.IOCTL_UMS_READ_SECTORS,
   K.IOCTL_USB_WRITE, K.IOCTL_UMS_WRITE_SECTORS, K.IOCTL_UMS_GET_CAPACITY,
   K.IOCTL_USB_ISINSERTED, K.IOCTL_USB_UNMOUNT, K.IOCTL_UMS_SET_DRIVE,
   K.IOCTL_WBFS_OPEN_DISC, K.IOCTL_WBFS_READ_DISC]

/-- The case labels of the `switch (message->command)` of `main`, in source order. -/
def Consts.kindLabels (K : Consts) : List Nat :=
  [K.IOS_OPEN, K.IOS_CLOSE, K.IOS_IOCTLV]

/-- The three message values `__USB_Callback` compares against, in source order. -/
def Consts.sentinels (K : Consts) : List Nat :=
  [K.MESSAGE_DEVCHANGE, K.MESSAGE_ATTACH, K.MESSAGE_MOUNT]

/-- The labels of one C `switch` are pairwise distinct (a C compiler rejects
duplicate case values), and the three event message values are distinct. -/
def Consts.WellFormed (K : Consts) : Prop :=
  K.ioctlLabels.Nodup ∧ K.kindLabels.Nodup ∧ K.sentinels.Nodup

instance (K : Consts) : Decidable K.WellFormed := by
  unfold Consts.WellFormed; infer_instance

/-- Everything outside the module that a collaborator can read or change:
memory and the collaborators' own state. -/
structure World (σ : Type) where
  mem : Mem
  dev : σ

/-- The functions `main.c` calls in other translation units. A result of C
type `bool` or `s32` is an integer; `usbstorage_ReadCapacity` also yields the
two `u32` values it stores through its pointer arguments, in argument order
(`sectorSz`, `nbSector`). -/
structure Collab (σ : Type) where
  usbstorage_Startup : World σ → Int × World σ
  usbstorage_ReadSectors : Nat → Nat → Nat → World σ → Int × World σ
  usbstorage_WriteSectors : Nat → Nat → Nat → World σ → Int × World σ
  usbstorage_ReadCapacity : World σ → (Int × Nat × Nat) × World σ
  usbstorage_IsInserted : World σ → Int × World σ
  usbstorage_Shutdown : World σ → Int × World σ
  WBFS_OpenDisc : Nat → World σ → Int × World σ
  WBFS_Read : Nat → Nat → Nat → World σ → Int × World σ
  USB_DeviceChange : Int → World σ → World σ
  USB_AttachFinish : Int → World σ → World σ
  Stealth_CheckRunningTitle : Nat → World σ → Int × World σ

/-- A call leaving `main.c`, with its arguments. -/
inductive Effect where
  | InvalidateVector (vector : Nat → ioctlv) (inlen iolen : Nat)
  | FlushVector (vector : Nat → ioctlv) (inlen iolen : Nat)
  | usbstorage_Startup
  | usbstorage_ReadSectors (sector count buffer : Nat)
  | usbstorage_WriteSectors (sector count buffer : Nat)
  | usbstorage_ReadCapacity
  | usbstorage_IsInserted
  | usbstorage_Shutdown
  | WBFS_OpenDisc (discid : Nat)
  | WBFS_Read (buffer len offset : Nat)
  | USB_DeviceChange (result : Int)
  | USB_AttachFinish (result : Int)
  | Stealth_CheckRunningTitle (arg : Nat)
  | os_message_queue_ack (message : Nat) (ret : Int)

/-- The effect is the coherency preparation `InvalidateVector`. -/
def Effect.isInvalidate : Effect → Bool
  | .InvalidateVector _ _ _ => true
  | _ => false

/-- The effect is the coherency flush `FlushVector`. -/
def Effect.isFlush : Effect → Bool
  | .FlushVector _ _ _ => true
  | _ => false

/-- The effect is a call into the storage layer or the disc-image layer. -/
def Effect.isStorageOrDisc : Effect → Bool
  | .usbstorage_Startup => true
  | .usbstorage_ReadSectors _ _ _ => true
  | .usbstorage_WriteSectors _ _ _ => true
  | .usbstorage_ReadCapacity => true
  | .usbstorage_IsInserted => true
  | .usbstorage_Shutdown => true
  | .WBFS_OpenDisc _ => true
  | .WBFS_Read _ _ _ => true
  | _ => false

/-- The effect is a call of one of the two notifiers or of the presence check,
the three calls `__USB_Callback` can make. -/
def Effect.isNotifier : Effect → Bool
  | .USB_DeviceChange _ => true
  | .USB_AttachFinish _ => true
  | .usbstorage_IsInserted => true
  | _ => false

/-- The effect is the gating policy call. -/
def Effect.isGating : Effect → Bool
  | .Stealth_CheckRunningTitle _ => true
  | _ => false

/-- The effect is a client acknowledgment. -/
def Effect.isAck : Effect → Bool
  | .os_message_queue_ack _ _ => true
  | _ => false

/-- The variables of `main.c`, the world outside it, and the calls made so far. -/
structure State (σ : Type) where
  current_drive : Nat
  usbCb : Fin 2 → areply
  world : World σ
  trace : List Effect

/-- The state at process start: `current_drive = 0`, `usbCb = { { -1, -1 } }`
(the second slot is zero-initialised), nothing called yet. -/
def State.init {σ : Type} (w : World σ) : State σ :=
  { current_drive := 0
    usbCb := fun i => if i = 0 then ⟨-1⟩ else ⟨0⟩
    world := w
    trace := [] }

/-- Record a call, and install the world it leaves behind. -/
def State.call {σ : Type} (s : State σ) (e : Effect) (w : World σ) : State σ :=
  { s with world := w, trace := s.trace ++ [e] }

/-! ## The functions of `main.c` -/

/-- The function `__USB_Ioctlv(cmd, vector, inlen, iolen)`. -/
def __USB_Ioctlv {σ : Type} (K : Consts) (E : Collab σ)
    (cmd : Nat) (vector : Nat → ioctlv) (inlen iolen : Nat) (s : State σ) : Int × State σ :=
  let ret : Int := K.IPC_EINVAL
  -- InvalidateVector(vector, inlen, iolen);
  let s := s.call (.InvalidateVector vector inlen iolen) s.world
  let (ret, s) : Int × State σ :=
    if cmd = K.IOCTL_USB_INIT ∨ cmd = K.IOCTL_UMS_INIT then
      let r := E.usbstorage_Startup s.world
      (lnot r.1, s.call .usbstorage_Startup r.2)
    else if cmd = K.IOCTL_USB_READ ∨ cmd = K.IOCTL_UMS_READ_SECTORS then
      let buffer := (vector 2).data
      let sector := load32 s.world.mem (vector 0).data
      let count := load32 s.world.mem (vector 1).data
      let r := E.usbstorage_ReadSectors sector count buffer s.world
      (lnot r.1, s.call (.usbstorage_ReadSectors sector count buffer) r.2)
    else if cmd = K.IOCTL_USB_WRITE ∨ cmd = K.IOCTL_UMS_WRITE_SECTORS then
      let buffer := (vector 2).data
      let sector := load32 s.world.mem (vector 0).data
      let count := load32 s.world.mem (vector 1).data
      let r := E.usbstorage_WriteSectors sector count buffer s.world
      (lnot r.1, s.call (.usbstorage_WriteSectors sector count buffer) r.2)
    else if cmd = K.IOCTL_UMS_GET_CAPACITY then
      let output := (vector 0).data
      let r := E.usbstorage_ReadCapacity s.world
      let sectorSz := r.1.2.1
      let nbSector := r.1.2.2
      let ret := lnot r.1.1
      let s := s.call .usbstorage_ReadCapacity r.2
      if ret = 0 then
        (toS32 nbSector,
          { s with world := { s.world with mem := store32 s.world.mem output sectorSz } })
      else (ret, s)
    else if cmd = K.IOCTL_USB_ISINSERTED then
      let r := E.usbstorage_IsInserted s.world
      (lnot r.1, s.call .usbstorage_IsInserted r.2)
    else if cmd = K.IOCTL_USB_UNMOUNT then
      let r := E.usbstorage_Shutdown s.world
      (lnot r.1, s.call .usbstorage_Shutdown r.2)
    else if cmd = K.IOCTL_UMS_SET_DRIVE then
      let drive := load32 s.world.mem (vector 0).data
      if drive > 1 then (-1, s)
      else (toS32 drive, { s with current_drive := drive })
    else if cmd = K.IOCTL_WBFS_OPEN_DISC then
      let discid := (vector 0).data
      let r := E.WBFS_OpenDisc discid s.world
      (r.1, s.call (.WBFS_OpenDisc discid) r.2)
    else if cmd = K.IOCTL_WBFS_READ_DISC then
      let offset := load32 s.world.mem (vector 0).data
      let len := load32 s.world.mem (vector 1).data
      let buffer := (vector 2).data
      let r := E.WBFS_Read buffer len offset s.world
      let s := s.call (.WBFS_Read buffer len offset) r.2
      if r.1 ≠ 0 then (0x8000, s) else (r.1, s)
    else (ret, s)
  -- FlushVector(vector, inlen, iolen);
  (ret, s.call (.FlushVector vector inlen iolen) s.world)

/-- The function `__USB_Callback(message)`. -/
def __USB_Callback {σ : Type} (K : Consts) (E : Collab σ)
    (message : Nat) (s : State σ) : Int × State σ :=
  if message = K.MESSAGE_DEVCHANGE then
    (0, s.call (.USB_DeviceChange (s.usbCb 0).result)
          (E.USB_DeviceChange (s.usbCb 0).result s.world))
  else if message = K.MESSAGE_ATTACH then
    (0, s.call (.USB_AttachFinish (s.usbCb 1).result)
          (E.USB_AttachFinish (s.usbCb 1).result s.world))
  else if message = K.MESSAGE_MOUNT then
    (0, s.call .usbstorage_IsInserted (E.usbstorage_IsInserted s.world).2)
  else (-1, s)

/-- One iteration of the `while (1)` loop of `main`, for the message that
`os_message_queue_receive` has delivered. -/
def main_loop_body {σ : Type} (K : Consts) (E : Collab σ)
    (rx : Received) (s : State σ) : State σ :=
  let cb := __USB_Callback K E rx.message s
  if cb.1 = 0 then cb.2   -- continue;
  else
    let s := cb.2
    let message := rx.deref
    let (ret, s) : Int × State σ :=
      if message.command = K.IOS_OPEN then
        let g := E.Stealth_CheckRunningTitle 0 s.world
        let s := s.call (.Stealth_CheckRunningTitle 0) g.2
        if g.1 ≠ 0 then (K.IPC_ENOENT, s)
        else if strcmp message.open_device K.DEVICE_NAME = 0 then (message.open_resultfd, s)
        else (K.IPC_ENOENT, s)
      else if message.command = K.IOS_CLOSE then (0, s)
      else if message.command = K.IOS_IOCTLV then
        __USB_Ioctlv K E message.ioctlv_command message.ioctlv_vector
          message.ioctlv_num_in message.ioctlv_num_io s
      else (K.IPC_EINVAL, s)
    -- os_message_queue_ack(message, ret);
    s.call (.os_message_queue_ack rx.message ret) s.world

/-- What the blocking call `os_message_queue_receive` amounts to for the module:
while the loop waits, the rest of the system may store asynchronous results into
the reply slots and change the world outside; then one message is delivered. -/
structure Arrival (σ : Type) where
  usbCb : (Fin 2 → areply) → (Fin 2 → areply)
  world : World σ → World σ
  rx : Received

/-- The state in which the loop resumes after `os_message_queue_receive`. -/
def os_message_queue_receive {σ : Type} (a : Arrival σ) (s : State σ) : State σ :=
  { s with usbCb := a.usbCb s.usbCb, world := a.world s.world }

/-- The `while (1)` loop of `main` run over a finite sequence of arrivals. -/
def main_loop {σ : Type} (K : Consts) (E : Collab σ) : List (Arrival σ) → State σ → State σ
  | [], s => s
  | a :: rest, s => main_loop K E rest (main_loop_body K E a.rx (os_message_queue_receive a s))

/-- The result the specification (section 4.1, step 3) assigns to a request
received in state `s`: for OPEN the handle when gating allows and the path is the
registered name, "no such entity" otherwise; for CLOSE 0; for vectored I/O the
value the dispatcher returns; for any other kind "invalid argument". -/
def spec_result {σ : Type} (K : Consts) (E : Collab σ) (rx : Received) (s : State σ) : Int :=
  if rx.deref.command = K.IOS_OPEN then
    if (E.Stealth_CheckRunningTitle 0 s.world).1 = 0 ∧ rx.deref.open_device = K.DEVICE_NAME
    then rx.deref.open_resultfd else K.IPC_ENOENT
  else if rx.deref.command = K.IOS_CLOSE then 0
  else if rx.deref.command = K.IOS_IOCTLV then
    (__USB_Ioctlv K E rx.deref.ioctlv_command rx.deref.ioctlv_vector
      rx.deref.ioctlv_num_in rx.deref.ioctlv_num_io s).1
  else K.IPC_EINVAL

/-- The acknowledgments the specification expects for a sequence of arrivals:
none for a hardware event, one for every other message, carrying the result of
that message in the state in which it was received, in order of arrival. -/
def spec_acks {σ : Type} (K : Consts) (E : Collab σ) :
    List (Arrival σ) → State σ → List (Nat × Int)
  | [], _ => []
  | a :: rest, s =>
    (if a.rx.message ∈ K.sentinels then []
      else [(a.rx.message, spec_result K E a.rx (os_message_queue_receive a s))]) ++
    spec_acks K E rest (main_loop_body K E a.rx (os_message_queue_receive a s))

/-- The status `ret` is the inversion of the collaborator outcome `out`: 0 exactly
when `out` is nonzero (success, presence), 1 exactly when `out` is 0. -/
def InvertedStatus (ret out : Int) : Prop :=
  (ret = 0 ↔ out ≠ 0) ∧ (ret = 1 ↔ out = 0) ∧ (ret ≠ 0 ↔ out = 0)

/-- The acknowledgments in a trace, oldest first: message and result. -/
def acks : List Effect → List (Nat × Int)
  | [] => []
  | .os_message_queue_ack message ret :: t => (message, ret) :: acks t
  | _ :: t => acks t

/-- The effects of one dispatcher call that performs the operations `ops`. -/
def bracket (vector : Nat → ioctlv) (inlen iolen : Nat) (ops : List Effect) : List Effect :=
  [Effect.InvalidateVector vector inlen iolen] ++ ops ++ [Effect.FlushVector vector inlen iolen]

/-! ## The module in one address space

In `main.c` the variables `current_drive` and `usbCb` are ordinary objects in
the memory that client pointers address, and `InvalidateVector` and
`FlushVector` are calls into another translation unit. The definitions below
embed the same three functions with both facts kept: the variables are words of
`Mem` at the addresses of a `Layout`, and the two coherency calls are
collaborators acting on the `World`. -/

/-- The addresses of the objects defined in `main.c`: `&current_drive` and
`&usbCb[i].result`. -/
structure Layout where
  current_drive : Nat
  usbCb_result : Fin 2 → Nat

/-- The coherency primitives `InvalidateVector` and `FlushVector` as calls that
may change the world, memory included. -/
structure Coherency (σ : Type) where
  InvalidateVector : (Nat → ioctlv) → Nat → Nat → World σ → World σ
  FlushVector : (Nat → ioctlv) → Nat → Nat → World σ → World σ

/-- The whole machine: memory (which holds the module's variables), the
collaborators' state, and the calls made so far. -/
structure Machine (σ : Type) where
  world : World σ
  trace : List Effect

/-- Record a call, and install the world it leaves behind. -/
def Machine.call {σ : Type} (m : Machine σ) (e : Effect) (w : World σ) : Machine σ :=
  { world := w, trace := m.trace ++ [e] }

/-- The value of the variable `current_drive`. -/
def Machine.current_drive {σ : Type} (L : Layout) (m : Machine σ) : Nat :=
  load32 m.world.mem L.current_drive

/-- The value of `usbCb[i].result`, an `s32`. -/
def Machine.usbCb_result {σ : Type} (L : Layout) (m : Machine σ) (i : Fin 2) : Int :=
  toS32 (load32 m.world.mem (L.usbCb_result i))

/-- The machine at process start, on top of a given world: `current_drive = 0`,
`usbCb = { { -1, -1 } }` (the second slot zero-initialised), nothing called yet. -/
def Machine.init {σ : Type} (L : Layout) (w : World σ) : Machine σ :=
  { world :=
      { w with
        mem := store32 (store32 (store32 w.mem (L.usbCb_result 1) 0)
          (L.usbCb_result 0) (2 ^ 32 - 1)) L.current_drive 0 }
    trace := [] }

/-- The two 4-byte objects at addresses `p` and `q` do not overlap. -/
def Apart32 (p q : Nat) : Prop := p + 4 ≤ q ∨ q + 4 ≤ p

instance (p q : Nat) : Decidable (Apart32 p q) := by
  unfold Apart32; infer_instance

namespace Addr

/-- The function `__USB_Ioctlv(cmd, vector, inlen, iolen)`, in one address space. -/
def __USB_Ioctlv {σ : Type} (K : Consts) (L : Layout) (E : Collab σ) (C : Coherency σ)
    (cmd : Nat) (vector : Nat → ioctlv) (inlen iolen : Nat) (m : Machine σ) :
    Int × Machine σ :=
  let ret : Int := K.IPC_EINVAL
  -- InvalidateVector(vector, inlen, iolen);
  let m := m.call (.InvalidateVector vector inlen iolen)
    (C.InvalidateVector vector inlen iolen m.world)
  let (ret, m) : Int × Machine σ :=
    if cmd = K.IOCTL_USB_INIT ∨ cmd = K.IOCTL_UMS_INIT then
      let r := E.usbstorage_Startup m.world
      (lnot r.1, m.call .usbstorage_Startup r.2)
    else if cmd = K.IOCTL_USB_READ ∨ cmd = K.IOCTL_UMS_READ_SECTORS then
      let buffer := (vector 2).data
      let sector := load32 m.world.mem (vector 0).data
      let count := load32 m.world.mem (vector 1).data
      let r := E.usbstorage_ReadSectors sector count buffer m.world
      (lnot r.1, m.call (.usbstorage_ReadSectors sector count buffer) r.2)
    else if cmd = K.IOCTL_USB_WRITE ∨ cmd = K.IOCTL_UMS_WRITE_SECTORS then
      let buffer := (vector 2).data
      let sector := load32 m.world.mem (vector 0).data
      let count := load32 m.world.mem (vector 1).data
      let r := E.usbstorage_WriteSectors sector count buffer m.world
      (lnot r.1, m.call (.usbstorage_WriteSectors sector count buffer) r.2)
    else if cmd = K.IOCTL_UMS_GET_CAPACITY then
      let output := (vector 0).data
      let r := E.usbstorage_ReadCapacity m.world
      let sectorSz := r.1.2.1
      let nbSector := r.1.2.2
      let ret := lnot r.1.1
      let m := m.call .usbstorage_ReadCapacity r.2
      if ret = 0 then
        -- *output = sectorSz;
        (toS32 nbSector,
          { m with world := { m.world with mem := store32 m.world.mem output sectorSz } })
      else (ret, m)
    else if cmd = K.IOCTL_USB_ISINSERTED then
      let r := E.usbstorage_IsInserted m.world
      (lnot r.1, m.call .usbstorage_IsInserted r.2)
    else if cmd = K.IOCTL_USB_UNMOUNT then
      let r := E.usbstorage_Shutdown m.world
      (lnot r.1, m.call .usbstorage_Shutdown r.2)
    else if cmd = K.IOCTL_UMS_SET_DRIVE then
      let drive := load32 m.world.mem (vector 0).data
      if drive > 1 then (-1, m)
      else
        -- ret = current_drive = drive;
        (toS32 drive,
          { m with world := { m.world with mem := store32 m.world.mem L.current_drive drive } })
    else if cmd = K.IOCTL_WBFS_OPEN_DISC then
      let discid := (vector 0).data
      let r := E.WBFS_OpenDisc discid m.world
      (r.1, m.call (.WBFS_OpenDisc discid) r.2)
    else if cmd = K.IOCTL_WBFS_READ_DISC then
      let offset := load32 m.world.mem (vector 0).data
      let len := load32 m.world.mem (vector 1).data
      let buffer := (vector 2).data
      let r := E.WBFS_Read buffer len offset m.world
      let m := m.call (.WBFS_Read buffer len offset) r.2
      if r.1 ≠ 0 then (0x8000, m) else (r.1, m)
    else (ret, m)
  -- FlushVector(vector, inlen, iolen);
  (ret, m.call (.FlushVector vector inlen iolen) (C.FlushVector vector inlen iolen m.world))

/-- The function `__USB_Callback(message)`, in one address space. -/
def __USB_Callback {σ : Type} (K : Consts) (L : Layout) (E : Collab σ)
    (message : Nat) (m : Machine σ) : Int × Machine σ :=
  if message = K.MESSAGE_DEVCHANGE then
    (0, m.call (.USB_DeviceChange (m.usbCb_result L 0))
          (E.USB_DeviceChange (m.usbCb_result L 0) m.world))
  else if message = K.MESSAGE_ATTACH then
    (0, m.call (.USB_AttachFinish (m.usbCb_result L 1))
          (E.USB_AttachFinish (m.usbCb_result L 1) m.world))
  else if message = K.MESSAGE_MOUNT then
    (0, m.call .usbstorage_IsInserted (E.usbstorage_IsInserted m.world).2)
  else (-1, m)

/-- One iteration of the `while (1)` loop of `main`, in one address space. -/
def main_loop_body {σ : Type} (K : Consts) (L : Layout) (E : Collab σ) (C : Coherency σ)
    (rx : Received) (m : Machine σ) : Machine σ :=
  let cb := __USB_Callback K L E rx.message m
  if cb.1 = 0 then cb.2   -- continue;
  else
    let m := cb.2
    let message := rx.deref
    let (ret, m) : Int × Machine σ :=
      if message.command = K.IOS_OPEN then
        let g := E.Stealth_CheckRunningTitle 0 m.world
        let m := m.call (.Stealth_CheckRunningTitle 0) g.2
        if g.1 ≠ 0 then (K.IPC_ENOENT, m)
        else if strcmp message.open_device K.DEVICE_NAME = 0 then (message.open_resultfd, m)
        else (K.IPC_ENOENT, m)
      else if message.command = K.IOS_CLOSE then (0, m)
      else if message.command = K.IOS_IOCTLV then
        __USB_Ioctlv K L E C message.ioctlv_command message.ioctlv_vector
          message.ioctlv_num_in message.ioctlv_num_io m
      else (K.IPC_EINVAL, m)
    -- os_message_queue_ack(message, ret);
    m.call (.os_message_queue_ack rx.message ret) m.world

/-- What the blocking call `os_message_queue_receive` amounts to: while the loop
waits the rest of the system may change the world (it fills the reply slots,
which are in memory); then one message is delivered. -/
structure Delivery (σ : Type) where
  world : World σ → World σ
  rx : Received

/-- The `while (1)` loop of `main` run over a finite sequence of deliveries. -/
def main_loop {σ : Type} (K : Consts) (L : Layout) (E : Collab σ) (C : Coherency σ) :
    List (Delivery σ) → Machine σ → Machine σ
  | [], m => m
  | d :: rest, m =>
    main_loop K L E C rest (main_loop_body K L E C d.rx { m with world := d.world m.world })

/-- Every call the dispatcher can make for this vector and these counts leaves
the 32-bit word at address `a` as it was. -/
def DispatchKeeps {σ : Type} (E : Collab σ) (C : Coherency σ) (vector : Nat → ioctlv)
    (inlen iolen a : Nat) : Prop :=
  (∀ w, load32 (C.InvalidateVector vector inlen iolen w).mem a = load32 w.mem a) ∧
  (∀ w, load32 (C.FlushVector vector inlen iolen w).mem a = load32 w.mem a) ∧
  (∀ w, load32 (E.usbstorage_Startup w).2.mem a = load32 w.mem a) ∧
  (∀ sector count w,
    load32 (E.usbstorage_ReadSectors sector count (vector 2).data w).2.mem a = load32 w.mem a) ∧
  (∀ sector count w,
    load32 (E.usbstorage_WriteSectors sector count (vector 2).data w).2.mem a = load32 w.mem a) ∧
  (∀ w, load32 (E.usbstorage_ReadCapacity w).2.mem a = load32 w.mem a) ∧
  (∀ w, load32 (E.usbstorage_IsInserted w).2.mem a = load32 w.mem a) ∧
  (∀ w, load32 (E.usbstorage_Shutdown w).2.mem a = load32 w.mem a) ∧
  (∀ w, load32 (E.WBFS_OpenDisc (vector 0).data w).2.mem a = load32 w.mem a) ∧
  (∀ len offset w,
    load32 (E.WBFS_Read (vector 2).data len offset w).2.mem a = load32 w.mem a)

/-- The calls the loop makes outside the dispatcher (the two notifiers, the
presence check, the gating policy) leave the 32-bit word at address `a` as it was. -/
def LoopKeeps {σ : Type} (E : Collab σ) (a : Nat) : Prop :=
  (∀ v w, load32 (E.USB_DeviceChange v w).mem a = load32 w.mem a) ∧
  (∀ v w, load32 (E.USB_AttachFinish v w).mem a = load32 w.mem a) ∧
  (∀ w, load32 (E.usbstorage_IsInserted w).2.mem a = load32 w.mem a) ∧
  (∀ w, load32 (E.Stealth_CheckRunningTitle 0 w).2.mem a = load32 w.mem a)

/-- Nothing in this delivery but the Select-logical-unit command stores into the
word at `a`: the outside activity before it, the calls its request can cause,
and the output buffer of a Get-capacity request all stay clear of it. -/
def DeliveryKeeps {σ : Type} (K : Consts) (E : Collab σ) (C : Coherency σ) (a : Nat)
    (d : Delivery σ) : Prop :=
  (∀ w, load32 (d.world w).mem a = load32 w.mem a) ∧
  DispatchKeeps E C d.rx.deref.ioctlv_vector d.rx.deref.ioctlv_num_in
    d.rx.deref.ioctlv_num_io a ∧
  (d.rx.deref.command = K.IOS_IOCTLV →
    d.rx.deref.ioctlv_command = K.IOCTL_UMS_GET_CAPACITY →
    Apart32 (d.rx.deref.ioctlv_vector 0).data a)

end Addr

/-! ## A sample configuration

Concrete header values and a small simulated device, used to evaluate the
functions above on explicit inputs. -/

/-- A sample assignment of the header constants. -/
def demoConsts : Consts :=
  { IPC_EINVAL := -4
    IPC_ENOENT := -6
    IOCTL_USB_INIT := 0xF0
    IOCTL_UMS_INIT := 0x554D5301
    IOCTL_USB_READ := 0xF1
    IOCTL_UMS_READ_SECTORS := 0x554D5303
    IOCTL_USB_WRITE := 0xF2
    IOCTL_UMS_WRITE_SECTORS := 0x554D5304
    IOCTL_UMS_GET_CAPACITY := 0x554D5302
    IOCTL_USB_ISINSERTED := 0xF3
    IOCTL_USB_UNMOUNT := 0xF4
    IOCTL_UMS_SET_DRIVE := 0x554D5305
    IOCTL_WBFS_OPEN_DISC := 0x57465301
    IOCTL_WBFS_READ_DISC := 0x57465302
    MESSAGE_DEVCHANGE := 0x13700040
    MESSAGE_ATTACH := 0x13700048
    MESSAGE_MOUNT := 0x40000001
    IOS_OPEN := 1
    IOS_CLOSE := 2
    IOS_IOCTLV := 7
    DEVICE_NAME := "/dev/usb2" }

/-- State of the simulated collaborators: is a drive plugged in, and is a title running. -/
structure DemoDev where
  present : Bool
  titleRunning : Bool
deriving DecidableEq, Repr

/-- The boolean outcome of a simulated storage call: nonzero while a drive is plugged in. -/
def demoOutcome (w : World DemoDev) : Int := if w.dev.present then 1 else 0

/-- A simulated storage stack: a 512-byte-sector drive of 2048 sectors whose
calls succeed exactly while the drive is plugged in; a read stores the sector
index at the start of the buffer. -/
def demoCollab : Collab DemoDev where
  usbstorage_Startup w := (demoOutcome w, w)
  usbstorage_ReadSectors sector _ buffer w :=
    (demoOutcome w, if w.dev.present then ⟨store32 w.mem buffer sector, w.dev⟩ else w)
  usbstorage_WriteSectors _ _ _ w := (demoOutcome w, w)
  usbstorage_ReadCapacity w := ((demoOutcome w, 512, 2048), w)
  usbstorage_IsInserted w := (demoOutcome w, w)
  usbstorage_Shutdown w := (1, ⟨w.mem, ⟨false, w.dev.titleRunning⟩⟩)
  WBFS_OpenDisc _ w := (demoOutcome w - 1, w)
  WBFS_Read _ len _ w := (if 0 < len then demoOutcome w - 1 else -5, w)
  USB_DeviceChange v w := ⟨w.mem, ⟨decide (0 ≤ v), w.dev.titleRunning⟩⟩
  USB_AttachFinish _ w := w
  Stealth_CheckRunningTitle _ w := (if w.dev.titleRunning then 1 else 0, w)

/-- A buffer vector with three entries at addresses 100, 104 and 200. -/
def demoVector : Nat → ioctlv := fun i =>
  if i = 0 then ⟨100, 4⟩ else if i = 1 then ⟨104, 4⟩ else ⟨200, 64⟩

/-- Memory holding the word `a` at address 100 and the word `b` at address 104. -/
def demoMem (a b : Nat) : Mem := fun p => if p = 100 then a else if p = 104 then b else 0

/-- A state of the module with the given selected unit, the two buffer words
`a` and `b`, and the given collaborator state. -/
def demoState (drive a b : Nat) (present titleRunning : Bool) : State DemoDev :=
  { current_drive := drive
    usbCb := fun i => if i = 0 then ⟨-1⟩ else ⟨0⟩
    world := { mem := demoMem a b, dev := ⟨present, titleRunning⟩ }
    trace := [] }

/-- A request message of the given kind. -/
def demoMessage (command : Nat) (device : String) (resultfd : Int) (cmd : Nat) : ipcmessage :=
  { command := command
    open_device := device
    open_resultfd := resultfd
    ioctlv_command := cmd
    ioctlv_num_in := 2
    ioctlv_num_io := 1
    ioctlv_vector := demoVector }

/-- The simulated storage stack of `demoCollab`, for a drive of `n` sectors. -/
def demoCollabCount (n : Nat) : Collab DemoDev :=
  { demoCollab with usbstorage_ReadCapacity := fun w => ((demoOutcome w, 512, n), w) }

/-- An arrival that delivers `rx` and changes nothing else. -/
def demoArrival (message : Nat) (m : ipcmessage) : Arrival DemoDev :=
  { usbCb := id, world := id, rx := ⟨message, m⟩ }

/-- Sample addresses for the module's variables. -/
def demoLayout : Layout :=
  { current_drive := 0x13700050
    usbCb_result := fun i => if i = 0 then 0x13700044 else 0x1370004C }

/-- Coherency calls that change nothing. -/
def demoCoherency : Coherency DemoDev :=
  { InvalidateVector := fun _ _ _ w => w
    FlushVector := fun _ _ _ w => ⟨w.mem, w.dev⟩ }

/-- A simulated cache: the word of buffer 0 as last written from outside sits at
the buffer address plus `2^31`, and `InvalidateVector` brings it into view when
the declared counts cover at least one buffer. -/
def demoCache : Coherency DemoDev :=
  { InvalidateVector := fun vector inlen iolen w =>
      if 0 < inlen + iolen then
        ⟨store32 w.mem (vector 0).data (w.mem ((vector 0).data + 2 ^ 31)), w.dev⟩
      else w
    FlushVector := fun _ _ _ w => ⟨w.mem, w.dev⟩ }

/-- A buffer vector whose entry 0 is the given address. -/
def demoVectorAt (p : Nat) : Nat → ioctlv := fun i =>
  if i = 0 then ⟨p, 4⟩ else if i = 1 then ⟨104, 4⟩ else ⟨200, 64⟩

/-- A machine whose memory holds `drive` in `current_drive`, -1 and 0 in the two
reply slots, and the words `a` and `b` at addresses 100 and 104. -/
def demoMachine (drive a b : Nat) (present : Bool) : Machine DemoDev :=
  { world :=
      { mem := fun p =>
          if p = 0x13700050 then drive else if p = 0x13700044 then 2 ^ 32 - 1
          else if p = 100 then a else if p = 104 then b else 0
        dev := ⟨present, false⟩ }
    trace := [] }

/-- A vectored I/O request with the given command and buffer vector. -/
def demoIoctlv (cmd : Nat) (vector : Nat → ioctlv) : ipcmessage :=
  { command := 7
    open_device := ""
    open_resultfd := 0
    ioctlv_command := cmd
    ioctlv_num_in := 0
    ioctlv_num_io := 1
    ioctlv_vector := vector }

/-- A world with a plugged-in drive whose memory holds the word `a` at address 100. -/
def demoWorld (a : Nat) : World DemoDev :=
  { mem := fun p => if p = 100 then a else 0, dev := ⟨true, false⟩ }

/-- A machine in which the word at address 100 is 7 in the cached view and 1 as
last written from outside. -/
def demoStale : Machine DemoDev :=
  { world :=
      { mem := fun p => if p = 100 then 7 else if p = 100 + 2 ^ 31 then 1 else 0
        dev := ⟨true, false⟩ }
    trace := [] }

/-! ## Auxiliary facts -/

theorem demoConsts_wellFormed : demoConsts.WellFormed := by
  decide

theorem lnot_eq_zero_iff (x : Int) : lnot x = 0 ↔ x ≠ 0 := by
  unfold lnot; split <;> simp_all

theorem lnot_eq_one_iff (x : Int) : lnot x = 1 ↔ x = 0 := by
  unfold lnot; split <;> simp_all

theorem invertedStatus_lnot (x : Int) : InvertedStatus (lnot x) x := by
  unfold InvertedStatus lnot
  split <;> simp_all

theorem toS32_of_lt (v : Nat) (h : v < 2 ^ 31) : toS32 v = v := by
  have h2 : v % 2 ^ 32 = v := Nat.mod_eq_of_lt (by omega)
  unfold toS32
  rw [h2, if_pos h]

theorem toS32_emod (v : Nat) (h : v < 2 ^ 32) : toS32 v % 2 ^ 32 = v := by
  have h2 : v % 2 ^ 32 = v := Nat.mod_eq_of_lt h
  unfold toS32
  rw [h2]
  split <;> omega

theorem load32_store32 (m : Mem) (p v : Nat) (h : v < 2 ^ 32) :
    load32 (store32 m p v) p = v := by
  have h2 : v % 2 ^ 32 = v := Nat.mod_eq_of_lt h
  unfold load32 store32
  rw [if_pos rfl, Nat.mod_mod, h2]

/-! ## The dispatcher, command by command -/

theorem Consts.WellFormed.ioctl {K : Consts} (hK : K.WellFormed) :
    K.ioctlLabels.Nodup ∧ K.ioctlLabels.reverse.Nodup :=
  ⟨hK.1, List.nodup_reverse.mpr hK.1⟩

theorem Consts.WellFormed.kind {K : Consts} (hK : K.WellFormed) :
    K.kindLabels.Nodup ∧ K.kindLabels.reverse.Nodup :=
  ⟨hK.2.1, List.nodup_reverse.mpr hK.2.1⟩

theorem Consts.WellFormed.sentinel {K : Consts} (hK : K.WellFormed) :
    K.sentinels.Nodup ∧ K.sentinels.reverse.Nodup :=
  ⟨hK.2.2, List.nodup_reverse.mpr hK.2.2⟩

theorem ioctlv_init_eq {σ : Type} (K : Consts) (E : Collab σ) (cmd : Nat)
    (vector : Nat → ioctlv) (inlen iolen : Nat) (s : State σ)
    (h : cmd = K.IOCTL_USB_INIT ∨ cmd = K.IOCTL_UMS_INIT) :
    __USB_Ioctlv K E cmd vector inlen iolen s =
      (lnot (E.usbstorage_Startup s.world).1,
        { s with
          world := (E.usbstorage_Startup s.world).2
          trace := s.trace ++ bracket vector inlen iolen [.usbstorage_Startup] }) := by
  simp [__USB_Ioctlv, State.call, bracket, h]

theorem ioctlv_read_eq {σ : Type} (K : Consts) (hK : K.WellFormed) (E : Collab σ) (cmd : Nat)
    (vector : Nat → ioctlv) (inlen iolen : Nat) (s : State σ)
    (h : cmd = K.IOCTL_USB_READ ∨ cmd = K.IOCTL_UMS_READ_SECTORS) :
    __USB_Ioctlv K E cmd vector inlen iolen s =
      (lnot (E.usbstorage_ReadSectors (load32 s.world.mem (vector 0).data)
          (load32 s.world.mem (vector 1).data) (vector 2).data s.world).1,
        { s with
          world := (E.usbstorage_ReadSectors (load32 s.world.mem (vector 0).data)
            (load32 s.world.mem (vector 1).data) (vector 2).data s.world).2
          trace := s.trace ++ bracket vector inlen iolen
            [.usbstorage_ReadSectors (load32 s.world.mem (vector 0).data)
              (load32 s.world.mem (vector 1).data) (vector 2).data] }) := by
  obtain ⟨h1, h2⟩ := hK.ioctl
  simp [Consts.ioctlLabels] at h1 h2
  rcases h with h | h <;> subst h <;> simp [__USB_Ioctlv, State.call, bracket, h1, h2]

theorem ioctlv_write_eq {σ : Type} (K : Consts) (hK : K.WellFormed) (E : Collab σ) (cmd : Nat)
    (vector : Nat → ioctlv) (inlen iolen : Nat) (s : State σ)
    (h : cmd = K.IOCTL_USB_WRITE ∨ cmd = K.IOCTL_UMS_WRITE_SECTORS) :
    __USB_Ioctlv K E cmd vector inlen iolen s =
      (lnot (E.usbstorage_WriteSectors (load32 s.world.mem (vector 0).data)
          (load32 s.world.mem (vector 1).data) (vector 2).data s.world).1,
        { s with
          world := (E.usbstorage_WriteSectors (load32 s.world.mem (vector 0).data)
            (load32 s.world.mem (vector 1).data) (vector 2).data s.world).2
          trace := s.trace ++ bracket vector inlen iolen
            [.usbstorage_WriteSectors (load32 s.world.mem (vector 0).data)
              (load32 s.world.mem (vector 1).data) (vector 2).data] }) := by
  obtain ⟨h1, h2⟩ := hK.ioctl
  simp [Consts.ioctlLabels] at h1 h2
  rcases h with h | h <;> subst h <;> simp [__USB_Ioctlv, State.call, bracket, h1, h2]

theorem ioctlv_capacity_eq {σ : Type} (K : Consts) (hK : K.WellFormed) (E : Collab σ) (cmd : Nat)
    (vector : Nat → ioctlv) (inlen iolen : Nat) (s : State σ)
    (h : cmd = K.IOCTL_UMS_GET_CAPACITY) :
    __USB_Ioctlv K E cmd vector inlen iolen s =
      (if (E.usbstorage_ReadCapacity s.world).1.1 ≠ 0 then
        (toS32 (E.usbstorage_ReadCapacity s.world).1.2.2,
          { s with
            world :=
              { (E.usbstorage_ReadCapacity s.world).2 with
                mem := store32 (E.usbstorage_ReadCapacity s.world).2.mem (vector 0).data
                  (E.usbstorage_ReadCapacity s.world).1.2.1 }
            trace := s.trace ++ bracket vector inlen iolen [.usbstorage_ReadCapacity] })
      else
        (1,
          { s with
            world := (E.usbstorage_ReadCapacity s.world).2
            trace := s.trace ++ bracket vector inlen iolen [.usbstorage_ReadCapacity] })) := by
  obtain ⟨h1, h2⟩ := hK.ioctl
  simp [Consts.ioctlLabels] at h1 h2
  subst h
  by_cases hq : (E.usbstorage_ReadCapacity s.world).1.1 = 0 <;>
    simp [__USB_Ioctlv, State.call, bracket, lnot, h1, h2, hq]

theorem ioctlv_isinserted_eq {σ : Type} (K : Consts) (hK : K.WellFormed) (E : Collab σ) (cmd : Nat)
    (vector : Nat → ioctlv) (inlen iolen : Nat) (s : State σ)
    (h : cmd = K.IOCTL_USB_ISINSERTED) :
    __USB_Ioctlv K E cmd vector inlen iolen s =
      (lnot (E.usbstorage_IsInserted s.world).1,
        { s with
          world := (E.usbstorage_IsInserted s.world).2
          trace := s.trace ++ bracket vector inlen iolen [.usbstorage_IsInserted] }) := by
  obtain ⟨h1, h2⟩ := hK.ioctl
  simp [Consts.ioctlLabels] at h1 h2
  subst h
  simp [__USB_Ioctlv, State.call, bracket, h1, h2]

theorem ioctlv_unmount_eq {σ : Type} (K : Consts) (hK : K.WellFormed) (E : Collab σ) (cmd : Nat)
    (vector : Nat → ioctlv) (inlen iolen : Nat) (s : State σ)
    (h : cmd = K.IOCTL_USB_UNMOUNT) :
    __USB_Ioctlv K E cmd vector inlen iolen s =
      (lnot (E.usbstorage_Shutdown s.world).1,
        { s with
          world := (E.usbstorage_Shutdown s.world).2
          trace := s.trace ++ bracket vector inlen iolen [.usbstorage_Shutdown] }) := by
  obtain ⟨h1, h2⟩ := hK.ioctl
  simp [Consts.ioctlLabels] at h1 h2
  subst h
  simp [__USB_Ioctlv, State.call, bracket, h1, h2]

theorem ioctlv_set_drive_eq {σ : Type} (K : Consts) (hK : K.WellFormed) (E : Collab σ) (cmd : Nat)
    (vector : Nat → ioctlv) (inlen iolen : Nat) (s : State σ)
    (h : cmd = K.IOCTL_UMS_SET_DRIVE) :
    __USB_Ioctlv K E cmd vector inlen iolen s =
      (if load32 s.world.mem (vector 0).data > 1 then
        (-1, { s with trace := s.trace ++ bracket vector inlen iolen [] })
      else
        (toS32 (load32 s.world.mem (vector 0).data),
          { s with
            current_drive := load32 s.world.mem (vector 0).data
            trace := s.trace ++ bracket vector inlen iolen [] })) := by
  obtain ⟨h1, h2⟩ := hK.ioctl
  simp [Consts.ioctlLabels] at h1 h2
  subst h
  by_cases hd : load32 s.world.mem (vector 0).data > 1 <;>
    simp [__USB_Ioctlv, State.call, bracket, h1, h2, hd]

theorem ioctlv_open_disc_eq {σ : Type} (K : Consts) (hK : K.WellFormed) (E : Collab σ) (cmd : Nat)
    (vector : Nat → ioctlv) (inlen iolen : Nat) (s : State σ)
    (h : cmd = K.IOCTL_WBFS_OPEN_DISC) :
    __USB_Ioctlv K E cmd vector inlen iolen s =
      ((E.WBFS_OpenDisc (vector 0).data s.world).1,
        { s with
          world := (E.WBFS_OpenDisc (vector 0).data s.world).2
          trace := s.trace ++ bracket vector inlen iolen [.WBFS_OpenDisc (vector 0).data] }) := by
  obtain ⟨h1, h2⟩ := hK.ioctl
  simp [Consts.ioctlLabels] at h1 h2
  subst h
  simp [__USB_Ioctlv, State.call, bracket, h1, h2]

theorem ioctlv_read_disc_eq {σ : Type} (K : Consts) (hK : K.WellFormed) (E : Collab σ) (cmd : Nat)
    (vector : Nat → ioctlv) (inlen iolen : Nat) (s : State σ)
    (h : cmd = K.IOCTL_WBFS_READ_DISC) :
    __USB_Ioctlv K E cmd vector inlen iolen s =
      ((if (E.WBFS_Read (vector 2).data (load32 s.world.mem (vector 1).data)
            (load32 s.world.mem (vector 0).data) s.world).1 ≠ 0 then 0x8000 else 0),
        { s with
          world := (E.WBFS_Read (vector 2).data (load32 s.world.mem (vector 1).data)
            (load32 s.world.mem (vector 0).data) s.world).2
          trace := s.trace ++ bracket vector inlen iolen
            [.WBFS_Read (vector 2).data (load32 s.world.mem (vector 1).data)
              (load32 s.world.mem (vector 0).data)] }) := by
  obtain ⟨h1, h2⟩ := hK.ioctl
  simp [Consts.ioctlLabels] at h1 h2
  subst h
  by_cases hq : (E.WBFS_Read (vector 2).data (load32 s.world.mem (vector 1).data)
      (load32 s.world.mem (vector 0).data) s.world).1 = 0 <;>
    simp [__USB_Ioctlv, State.call, bracket, h1, h2, hq]

theorem ioctlv_default_eq {σ : Type} (K : Consts) (E : Collab σ) (cmd : Nat)
    (vector : Nat → ioctlv) (inlen iolen : Nat) (s : State σ)
    (h : cmd ∉ K.ioctlLabels) :
    __USB_Ioctlv K E cmd vector inlen iolen s =
      (K.IPC_EINVAL, { s with trace := s.trace ++ bracket vector inlen iolen [] }) := by
  simp [Consts.ioctlLabels] at h
  simp [__USB_Ioctlv, State.call, bracket, h]

/-! ## The event router and the loop body -/

theorem callback_not_consumed {σ : Type} (K : Consts) (E : Collab σ) (message : Nat)
    (s : State σ) (h : message ∉ K.sentinels) :
    __USB_Callback K E message s = (-1, s) := by
  simp [Consts.sentinels] at h
  simp [__USB_Callback, h]

theorem callback_consumed {σ : Type} (K : Consts) (E : Collab σ) (message : Nat)
    (s : State σ) (h : message ∈ K.sentinels) :
    (__USB_Callback K E message s).1 = 0 := by
  unfold __USB_Callback
  simp [Consts.sentinels] at h
  split_ifs <;> simp_all

theorem callback_consumed_trace {σ : Type} (K : Consts) (E : Collab σ) (message : Nat)
    (s : State σ) (h : message ∈ K.sentinels) :
    ∃ e : Effect,
      (__USB_Callback K E message s).2.trace = s.trace ++ [e] ∧
      e.isNotifier = true ∧ e.isAck = false ∧ e.isGating = false ∧
      e.isInvalidate = false ∧ e.isFlush = false := by
  simp [Consts.sentinels] at h
  by_cases m1 : message = K.MESSAGE_DEVCHANGE
  · exact ⟨.USB_DeviceChange (s.usbCb 0).result,
      by simp [__USB_Callback, State.call, m1], rfl, rfl, rfl, rfl, rfl⟩
  by_cases m2 : message = K.MESSAGE_ATTACH
  · subst m2
    exact ⟨.USB_AttachFinish (s.usbCb 1).result,
      by simp [__USB_Callback, State.call, m1], rfl, rfl, rfl, rfl, rfl⟩
  have m3 : message = K.MESSAGE_MOUNT := by
    rcases h with h | h | h
    · exact absurd h m1
    · exact absurd h m2
    · exact h
  subst m3
  exact ⟨.usbstorage_IsInserted,
    by simp [__USB_Callback, State.call, m1, m2], rfl, rfl, rfl, rfl, rfl⟩

theorem acks_append_of_not_ack (t : List Effect) (e : Effect) (he : e.isAck = false) :
    acks (t ++ [e]) = acks t := by
  induction t with
  | nil => cases e <;> simp_all [acks, Effect.isAck]
  | cons a t ih => cases a <;> simp_all [acks]

theorem acks_append_ack (t : List Effect) (message : Nat) (ret : Int) :
    acks (t ++ [.os_message_queue_ack message ret]) = acks t ++ [(message, ret)] := by
  induction t with
  | nil => simp [acks]
  | cons a t ih => cases a <;> simp_all [acks]

theorem strcmp_eq_zero_iff (a b : String) : strcmp a b = 0 ↔ a = b := by
  unfold strcmp
  split_ifs <;> simp_all

theorem acks_append (a b : List Effect) : acks (a ++ b) = acks a ++ acks b := by
  induction a with
  | nil => simp [acks]
  | cons e t ih => cases e <;> simp_all [acks]

theorem ioctlv_shape {σ : Type} (K : Consts) (E : Collab σ) (cmd : Nat)
    (vector : Nat → ioctlv) (s : State σ) :
    ∃ ops : List Effect,
      ops.length ≤ 1 ∧ (∀ e ∈ ops, e.isStorageOrDisc = true) ∧
      ∀ inlen iolen : Nat,
        __USB_Ioctlv K E cmd vector inlen iolen s =
          ((__USB_Ioctlv K E cmd vector 0 0 s).1,
            { (__USB_Ioctlv K E cmd vector 0 0 s).2 with
              trace := s.trace ++ bracket vector inlen iolen ops }) := by
  by_cases c1 : cmd = K.IOCTL_USB_INIT ∨ cmd = K.IOCTL_UMS_INIT
  · refine ⟨[.usbstorage_Startup], by simp, by simp [Effect.isStorageOrDisc], fun inlen iolen => ?_⟩
    simp [__USB_Ioctlv, State.call, bracket, c1]
  by_cases c2 : cmd = K.IOCTL_USB_READ ∨ cmd = K.IOCTL_UMS_READ_SECTORS
  · refine ⟨[.usbstorage_ReadSectors (load32 s.world.mem (vector 0).data)
      (load32 s.world.mem (vector 1).data) (vector 2).data], by simp, by simp [Effect.isStorageOrDisc], fun inlen iolen => ?_⟩
    simp [__USB_Ioctlv, State.call, bracket, c1, c2]
  by_cases c3 : cmd = K.IOCTL_USB_WRITE ∨ cmd = K.IOCTL_UMS_WRITE_SECTORS
  · refine ⟨[.usbstorage_WriteSectors (load32 s.world.mem (vector 0).data)
      (load32 s.world.mem (vector 1).data) (vector 2).data], by simp, by simp [Effect.isStorageOrDisc], fun inlen iolen => ?_⟩
    simp [__USB_Ioctlv, State.call, bracket, c1, c2, c3]
  by_cases c4 : cmd = K.IOCTL_UMS_GET_CAPACITY
  · refine ⟨[.usbstorage_ReadCapacity], by simp, by simp [Effect.isStorageOrDisc], fun inlen iolen => ?_⟩
    subst c4
    by_cases hi : lnot (E.usbstorage_ReadCapacity s.world).1.1 = 0 <;>
      simp [__USB_Ioctlv, State.call, bracket, c1, c2, c3, hi]
  by_cases c5 : cmd = K.IOCTL_USB_ISINSERTED
  · refine ⟨[.usbstorage_IsInserted], by simp, by simp [Effect.isStorageOrDisc], fun inlen iolen => ?_⟩
    subst c5
    simp [__USB_Ioctlv, State.call, bracket, c1, c2, c3, c4]
  by_cases c6 : cmd = K.IOCTL_USB_UNMOUNT
  · refine ⟨[.usbstorage_Shutdown], by simp, by simp [Effect.isStorageOrDisc], fun inlen iolen => ?_⟩
    subst c6
    simp [__USB_Ioctlv, State.call, bracket, c1, c2, c3, c4, c5]
  by_cases c7 : cmd = K.IOCTL_UMS_SET_DRIVE
  · refine ⟨[], by simp, by simp [Effect.isStorageOrDisc], fun inlen iolen => ?_⟩
    subst c7
    by_cases hi : load32 s.world.mem (vector 0).data > 1 <;>
      simp [__USB_Ioctlv, State.call, bracket, c1, c2, c3, c4, c5, c6, hi]
  by_cases c8 : cmd = K.IOCTL_WBFS_OPEN_DISC
  · refine ⟨[.WBFS_OpenDisc (vector 0).data], by simp, by simp [Effect.isStorageOrDisc], fun inlen iolen => ?_⟩
    subst c8
    simp [__USB_Ioctlv, State.call, bracket, c1, c2, c3, c4, c5, c6, c7]
  by_cases c9 : cmd = K.IOCTL_WBFS_READ_DISC
  · refine ⟨[.WBFS_Read (vector 2).data (load32 s.world.mem (vector 1).data)
      (load32 s.world.mem (vector 0).data)], by simp, by simp [Effect.isStorageOrDisc], fun inlen iolen => ?_⟩
    subst c9
    by_cases hi : (E.WBFS_Read (vector 2).data (load32 s.world.mem (vector 1).data)
        (load32 s.world.mem (vector 0).data) s.world).1 = 0 <;>
      simp [__USB_Ioctlv, State.call, bracket, c1, c2, c3, c4, c5, c6, c7, c8, hi]
  refine ⟨[], by simp, by simp, fun inlen iolen => ?_⟩
  simp [__USB_Ioctlv, State.call, bracket, c1, c2, c3, c4, c5, c6, c7, c8, c9]

theorem acks_eq_nil_of_no_ack (t : List Effect) (h : ∀ e ∈ t, e.isAck = false) :
    acks t = [] := by
  induction t with
  | nil => rfl
  | cons e t ih =>
    have he := h e (List.mem_cons_self _ _)
    have ht := ih (fun x hx => h x (List.mem_cons_of_mem _ hx))
    cases e <;> simp_all [acks, Effect.isAck]

theorem acks_bracket (vector : Nat → ioctlv) (inlen iolen : Nat) (ops : List Effect)
    (h : ∀ e ∈ ops, e.isStorageOrDisc = true) : acks (bracket vector inlen iolen ops) = [] := by
  apply acks_eq_nil_of_no_ack
  intro e he
  simp only [bracket, List.mem_append, List.mem_singleton] at he
  rcases he with (he | he) | he
  · subst he; rfl
  · have := h e he
    cases e <;> simp_all [Effect.isStorageOrDisc, Effect.isAck]
  · subst he; rfl

theorem ioctlv_acks {σ : Type} (K : Consts) (E : Collab σ) (cmd : Nat)
    (vector : Nat → ioctlv) (inlen iolen : Nat) (s : State σ) :
    acks (__USB_Ioctlv K E cmd vector inlen iolen s).2.trace = acks s.trace := by
  obtain ⟨ops, -, hops, h⟩ := ioctlv_shape K E cmd vector s
  rw [h inlen iolen]
  simp [acks_append, acks_bracket vector inlen iolen ops hops]

theorem callback_frame {σ : Type} (K : Consts) (E : Collab σ) (message : Nat) (s : State σ) :
    (__USB_Callback K E message s).2.usbCb = s.usbCb ∧
    (__USB_Callback K E message s).2.current_drive = s.current_drive := by
  unfold __USB_Callback
  split_ifs <;> exact ⟨rfl, rfl⟩

theorem body_consumed {σ : Type} (K : Consts) (E : Collab σ) (rx : Received) (s : State σ)
    (h : rx.message ∈ K.sentinels) :
    main_loop_body K E rx s = (__USB_Callback K E rx.message s).2 := by
  simp [main_loop_body, callback_consumed K E rx.message s h]

theorem body_not_consumed {σ : Type} (K : Consts) (E : Collab σ) (rx : Received) (s : State σ)
    (h : rx.message ∉ K.sentinels) :
    (rx.deref.command = K.IOS_OPEN →
      main_loop_body K E rx s =
        { s with
          world := (E.Stealth_CheckRunningTitle 0 s.world).2
          trace := s.trace ++ [.Stealth_CheckRunningTitle 0,
            .os_message_queue_ack rx.message (spec_result K E rx s)] }) ∧
    (rx.deref.command ≠ K.IOS_OPEN → rx.deref.command = K.IOS_CLOSE →
      main_loop_body K E rx s =
        { s with trace := s.trace ++ [.os_message_queue_ack rx.message (spec_result K E rx s)] }) ∧
    (rx.deref.command ≠ K.IOS_OPEN → rx.deref.command ≠ K.IOS_CLOSE →
      rx.deref.command = K.IOS_IOCTLV →
      main_loop_body K E rx s =
        { (__USB_Ioctlv K E rx.deref.ioctlv_command rx.deref.ioctlv_vector
            rx.deref.ioctlv_num_in rx.deref.ioctlv_num_io s).2 with
          trace := (__USB_Ioctlv K E rx.deref.ioctlv_command rx.deref.ioctlv_vector
              rx.deref.ioctlv_num_in rx.deref.ioctlv_num_io s).2.trace ++
            [.os_message_queue_ack rx.message (spec_result K E rx s)] }) ∧
    (rx.deref.command ≠ K.IOS_OPEN → rx.deref.command ≠ K.IOS_CLOSE →
      rx.deref.command ≠ K.IOS_IOCTLV →
      main_loop_body K E rx s =
        { s with trace := s.trace ++ [.os_message_queue_ack rx.message (spec_result K E rx s)] }) := by
  have hcb := callback_not_consumed K E rx.message s h
  refine ⟨?_, ?_, ?_, ?_⟩
  · intro ho
    by_cases hg : (E.Stealth_CheckRunningTitle 0 s.world).1 = 0
    · by_cases hp : rx.deref.open_device = K.DEVICE_NAME <;>
        simp [main_loop_body, spec_result, hcb, ho, hg, hp, strcmp_eq_zero_iff, State.call]
    · simp [main_loop_body, spec_result, hcb, ho, hg, State.call]
  · intro ho hc
    have ho' : ¬ K.IOS_CLOSE = K.IOS_OPEN := hc ▸ ho
    simp [main_loop_body, spec_result, hcb, hc, ho', State.call]
  · intro ho hc hv
    have ho' : ¬ K.IOS_IOCTLV = K.IOS_OPEN := hv ▸ ho
    have hc' : ¬ K.IOS_IOCTLV = K.IOS_CLOSE := hv ▸ hc
    simp [main_loop_body, spec_result, hcb, hv, ho', hc', State.call]
  · intro ho hc hv
    simp [main_loop_body, spec_result, hcb, ho, hc, hv, State.call]

theorem body_acks {σ : Type} (K : Consts) (E : Collab σ) (rx : Received) (s : State σ) :
    acks (main_loop_body K E rx s).trace =
      acks s.trace ++
        (if rx.message ∈ K.sentinels then [] else [(rx.message, spec_result K E rx s)]) := by
  by_cases h : rx.message ∈ K.sentinels
  · obtain ⟨e, h1, -, h3, -⟩ := callback_consumed_trace K E rx.message s h
    rw [body_consumed K E rx s h, h1, acks_append_of_not_ack _ _ h3]
    simp [h]
  · obtain ⟨b1, b2, b3, b4⟩ := body_not_consumed K E rx s h
    rw [if_neg h]
    by_cases ho : rx.deref.command = K.IOS_OPEN
    · rw [b1 ho]
      have e1 : s.trace ++ [Effect.Stealth_CheckRunningTitle 0,
          .os_message_queue_ack rx.message (spec_result K E rx s)] =
          (s.trace ++ [Effect.Stealth_CheckRunningTitle 0]) ++
            [.os_message_queue_ack rx.message (spec_result K E rx s)] := by simp
      show acks (s.trace ++ [Effect.Stealth_CheckRunningTitle 0,
          .os_message_queue_ack rx.message (spec_result K E rx s)]) = _
      rw [e1, acks_append_ack, acks_append_of_not_ack s.trace (.Stealth_CheckRunningTitle 0) rfl]
    by_cases hc : rx.deref.command = K.IOS_CLOSE
    · rw [b2 ho hc]
      exact acks_append_ack _ _ _
    by_cases hv : rx.deref.command = K.IOS_IOCTLV
    · rw [b3 ho hc hv]
      show acks (_ ++ [Effect.os_message_queue_ack rx.message (spec_result K E rx s)]) = _
      rw [acks_append_ack, ioctlv_acks]
    · rw [b4 ho hc hv]
      exact acks_append_ack _ _ _

theorem main_loop_append {σ : Type} (K : Consts) (E : Collab σ) (as bs : List (Arrival σ))
    (s : State σ) : main_loop K E (as ++ bs) s = main_loop K E bs (main_loop K E as s) := by
  induction as generalizing s with
  | nil => rfl
  | cons a rest ih => simp [main_loop, ih]

theorem main_loop_acks {σ : Type} (K : Consts) (E : Collab σ) (arrivals : List (Arrival σ))
    (s : State σ) :
    acks (main_loop K E arrivals s).trace = acks s.trace ++ spec_acks K E arrivals s := by
  induction arrivals generalizing s with
  | nil => simp [main_loop, spec_acks]
  | cons a rest ih =>
    rw [main_loop, ih, body_acks, spec_acks, List.append_assoc]
    rfl

theorem spec_acks_messages {σ : Type} (K : Consts) (E : Collab σ) (arrivals : List (Arrival σ))
    (s : State σ) :
    (spec_acks K E arrivals s).map Prod.fst =
      (arrivals.map (fun a => a.rx.message)).filter (fun m => decide (m ∉ K.sentinels)) := by
  induction arrivals generalizing s with
  | nil => rfl
  | cons a rest ih =>
    by_cases h : a.rx.message ∈ K.sentinels <;> simp [spec_acks, h, ih]

theorem load32_store32_ne (m : Mem) (p v a : Nat) (h : a ≠ p) :
    load32 (store32 m p v) a = load32 m a := by
  simp [load32, store32, h]

theorem apart32_ne {p q : Nat} (h : Apart32 p q) : q ≠ p := by
  unfold Apart32 at h
  omega

theorem addr_ioctlv_word {σ : Type} (K : Consts) (L : Layout) (E : Collab σ) (C : Coherency σ)
    (cmd : Nat) (vector : Nat → ioctlv) (inlen iolen : Nat) (m : Machine σ) (a : Nat)
    (hk : Addr.DispatchKeeps E C vector inlen iolen a)
    (hcap : cmd = K.IOCTL_UMS_GET_CAPACITY → a ≠ (vector 0).data) :
    load32 (Addr.__USB_Ioctlv K L E C cmd vector inlen iolen m).2.world.mem a =
        load32 m.world.mem a ∨
      (cmd = K.IOCTL_UMS_SET_DRIVE ∧ a = L.current_drive ∧
        load32 (Addr.__USB_Ioctlv K L E C cmd vector inlen iolen m).2.world.mem a ≤ 1) := by
  obtain ⟨h1, h2, h3, h4, h5, h6, h7, h8, h9, h10⟩ := hk
  by_cases c1 : cmd = K.IOCTL_USB_INIT ∨ cmd = K.IOCTL_UMS_INIT
  · left
    simp [Addr.__USB_Ioctlv, Machine.call, h1, h2, h3, h4, h5, h6, h7, h8, h9, h10, c1]
  by_cases c2 : cmd = K.IOCTL_USB_READ ∨ cmd = K.IOCTL_UMS_READ_SECTORS
  · left
    simp [Addr.__USB_Ioctlv, Machine.call, h1, h2, h3, h4, h5, h6, h7, h8, h9, h10, c1, c2]
  by_cases c3 : cmd = K.IOCTL_USB_WRITE ∨ cmd = K.IOCTL_UMS_WRITE_SECTORS
  · left
    simp [Addr.__USB_Ioctlv, Machine.call, h1, h2, h3, h4, h5, h6, h7, h8, h9, h10, c1, c2, c3]
  by_cases c4 : cmd = K.IOCTL_UMS_GET_CAPACITY
  · have hne := hcap c4
    subst c4
    left
    by_cases hi : lnot (E.usbstorage_ReadCapacity
        (C.InvalidateVector vector inlen iolen m.world)).1.1 = 0 <;>
      simp [Addr.__USB_Ioctlv, Machine.call, h1, h2, h3, h4, h5, h6, h7, h8, h9, h10, load32_store32_ne, hne, c1, c2, c3, hi]
  by_cases c5 : cmd = K.IOCTL_USB_ISINSERTED
  · subst c5
    left
    simp [Addr.__USB_Ioctlv, Machine.call, h1, h2, h3, h4, h5, h6, h7, h8, h9, h10, c1, c2, c3, c4]
  by_cases c6 : cmd = K.IOCTL_USB_UNMOUNT
  · subst c6
    left
    simp [Addr.__USB_Ioctlv, Machine.call, h1, h2, h3, h4, h5, h6, h7, h8, h9, h10, c1, c2, c3, c4, c5]
  by_cases c7 : cmd = K.IOCTL_UMS_SET_DRIVE
  · subst c7
    by_cases hi : load32 (C.InvalidateVector vector inlen iolen m.world).mem (vector 0).data > 1
    · left
      simp [Addr.__USB_Ioctlv, Machine.call, h1, h2, h3, h4, h5, h6, h7, h8, h9, h10, c1, c2, c3, c4, c5, c6, hi]
    · by_cases ha : a = L.current_drive
      · right
        subst ha
        have hlt : load32 (C.InvalidateVector vector inlen iolen m.world).mem (vector 0).data
            < 2 ^ 32 := by omega
        simp [Addr.__USB_Ioctlv, Machine.call, h1, h2, h3, h4, h5, h6, h7, h8, h9, h10, c1, c2, c3, c4, c5, c6, hi]
        rw [load32_store32 _ _ _ hlt]
        omega
      · left
        simp [Addr.__USB_Ioctlv, Machine.call, h1, h2, h3, h4, h5, h6, h7, h8, h9, h10, load32_store32_ne, ha, c1, c2, c3, c4, c5, c6, hi]
  by_cases c8 : cmd = K.IOCTL_WBFS_OPEN_DISC
  · subst c8
    left
    simp [Addr.__USB_Ioctlv, Machine.call, h1, h2, h3, h4, h5, h6, h7, h8, h9, h10, c1, c2, c3, c4, c5, c6, c7]
  by_cases c9 : cmd = K.IOCTL_WBFS_READ_DISC
  · subst c9
    left
    by_cases hi : (E.WBFS_Read (vector 2).data
        (load32 (C.InvalidateVector vector inlen iolen m.world).mem (vector 1).data)
        (load32 (C.InvalidateVector vector inlen iolen m.world).mem (vector 0).data)
        (C.InvalidateVector vector inlen iolen m.world)).1 = 0 <;>
      simp [Addr.__USB_Ioctlv, Machine.call, h1, h2, h3, h4, h5, h6, h7, h8, h9, h10, c1, c2, c3, c4, c5, c6, c7, c8, hi]
  left
  simp [Addr.__USB_Ioctlv, Machine.call, h1, h2, h3, h4, h5, h6, h7, h8, h9, h10, c1, c2, c3, c4, c5, c6, c7, c8, c9]

theorem addr_body_word {σ : Type} (K : Consts) (L : Layout) (E : Collab σ) (C : Coherency σ)
    (rx : Received) (m : Machine σ) (a : Nat)
    (hl : Addr.LoopKeeps E a)
    (hk : Addr.DispatchKeeps E C rx.deref.ioctlv_vector rx.deref.ioctlv_num_in
      rx.deref.ioctlv_num_io a)
    (hcap : rx.deref.command = K.IOS_IOCTLV →
      rx.deref.ioctlv_command = K.IOCTL_UMS_GET_CAPACITY → a ≠ (rx.deref.ioctlv_vector 0).data) :
    load32 (Addr.main_loop_body K L E C rx m).world.mem a = load32 m.world.mem a ∨
      (a = L.current_drive ∧ load32 (Addr.main_loop_body K L E C rx m).world.mem a ≤ 1) := by
  obtain ⟨l1, l2, l3, l4⟩ := hl
  obtain ⟨message, ⟨command, device, resultfd, cmd, num_in, num_io, vector⟩⟩ := rx
  simp only at hk hcap
  by_cases m1 : message = K.MESSAGE_DEVCHANGE
  · left
    simp [Addr.main_loop_body, Addr.__USB_Callback, Machine.call, m1, l1]
  by_cases m2 : message = K.MESSAGE_ATTACH
  · subst m2
    left
    simp [Addr.main_loop_body, Addr.__USB_Callback, Machine.call, m1, l2]
  by_cases m3 : message = K.MESSAGE_MOUNT
  · subst m3
    left
    simp [Addr.main_loop_body, Addr.__USB_Callback, Machine.call, m1, m2, l3]
  by_cases k1 : command = K.IOS_OPEN
  · subst k1
    left
    by_cases hg : (E.Stealth_CheckRunningTitle 0 m.world).1 = 0
    · by_cases hp : strcmp device K.DEVICE_NAME = 0 <;>
        simp [Addr.main_loop_body, Addr.__USB_Callback, Machine.call, m1, m2, m3, hg, hp, l4]
    · simp [Addr.main_loop_body, Addr.__USB_Callback, Machine.call, m1, m2, m3, hg, l4]
  by_cases k2 : command = K.IOS_CLOSE
  · subst k2
    left
    simp [Addr.main_loop_body, Addr.__USB_Callback, Machine.call, m1, m2, m3, k1]
  by_cases k3 : command = K.IOS_IOCTLV
  · have hc := hcap k3
    subst k3
    have hb : (Addr.main_loop_body K L E C
        ⟨message, ⟨K.IOS_IOCTLV, device, resultfd, cmd, num_in, num_io, vector⟩⟩ m).world =
        (Addr.__USB_Ioctlv K L E C cmd vector num_in num_io m).2.world := by
      simp [Addr.main_loop_body, Addr.__USB_Callback, Machine.call, m1, m2, m3, k1, k2]
    rw [hb]
    rcases addr_ioctlv_word K L E C cmd vector num_in num_io m a hk hc with h | h
    · exact Or.inl h
    · exact Or.inr ⟨h.2.1, h.2.2⟩
  left
  simp [Addr.main_loop_body, Addr.__USB_Callback, Machine.call, m1, m2, m3, k1, k2, k3]

theorem addr_main_loop_drive_le {σ : Type} (K : Consts) (L : Layout) (E : Collab σ)
    (C : Coherency σ) (ds : List (Addr.Delivery σ)) (m : Machine σ)
    (hl : Addr.LoopKeeps E L.current_drive)
    (hd : ∀ d ∈ ds, Addr.DeliveryKeeps K E C L.current_drive d)
    (h : m.current_drive L ≤ 1) : (Addr.main_loop K L E C ds m).current_drive L ≤ 1 := by
  induction ds generalizing m with
  | nil => exact h
  | cons d rest ih =>
    obtain ⟨d1, d2, d3⟩ := hd d (List.mem_cons_self _ _)
    apply ih _ (fun x hx => hd x (List.mem_cons_of_mem _ hx))
    have h0 : load32 (d.world m.world).mem L.current_drive ≤ 1 := by
      rw [d1]; exact h
    rcases addr_body_word K L E C d.rx { m with world := d.world m.world } L.current_drive
      hl d2 (fun hv hc => apart32_ne (d3 hv hc)) with h1 | h1
    · unfold Machine.current_drive
      rw [h1]
      exact h0
    · exact h1.2

theorem demo_loopKeeps (a : Nat) : Addr.LoopKeeps demoCollab a := by
  refine ⟨?_, ?_, ?_, ?_⟩ <;> intros <;> rfl

theorem demo_dispatchKeeps (vector : Nat → ioctlv) (inlen iolen a : Nat)
    (h : a ≠ (vector 2).data) :
    Addr.DispatchKeeps demoCollab demoCoherency vector inlen iolen a := by
  refine ⟨?_, ?_, ?_, ?_, ?_, ?_, ?_, ?_, ?_, ?_⟩
  · intro w; rfl
  · intro w; rfl
  · intro w; rfl
  · intro sector count w
    by_cases hp : w.dev.present = true <;>
      simp [demoCollab, hp, load32_store32_ne, h]
  · intro sector count w; rfl
  · intro w; rfl
  · intro w; rfl
  · intro w; rfl
  · intro w; rfl
  · intro len offset w; rfl

/-! ## Select logical unit -/


/-- C1: the Select-logical-unit command with unit index `d` read from buffer 0:
for `d` equal to 0 or 1 it stores `d` in `current_drive` and returns `d`; for any
other `d` it returns -1 and `current_drive` keeps its prior value. -/
theorem set_drive_contract {σ : Type} (K : Consts) (hK : K.WellFormed) (E : Collab σ)
    (vector : Nat → ioctlv) (inlen iolen : Nat) (s : State σ) (d : Nat)
    (hd : load32 s.world.mem (vector 0).data = d) :
    (d = 0 ∨ d = 1 →
      (__USB_Ioctlv K E K.IOCTL_UMS_SET_DRIVE vector inlen iolen s).1 = d ∧
      (__USB_Ioctlv K E K.IOCTL_UMS_SET_DRIVE vector inlen iolen s).2.current_drive = d) ∧
    (¬ (d = 0 ∨ d = 1) →
      (__USB_Ioctlv K E K.IOCTL_UMS_SET_DRIVE vector inlen iolen s).1 = -1 ∧
      (__USB_Ioctlv K E K.IOCTL_UMS_SET_DRIVE vector inlen iolen s).2.current_drive
        = s.current_drive) := by
  subst hd
  rw [ioctlv_set_drive_eq K hK E _ vector inlen iolen s rfl]
  constructor
  · intro h
    have h1 : ¬ load32 s.world.mem (vector 0).data > 1 := by omega
    have h2 : load32 s.world.mem (vector 0).data < 2 ^ 31 := by omega
    simp [h1, toS32_of_lt _ h2]
  · intro h
    have h1 : load32 s.world.mem (vector 0).data > 1 := by omega
    simp [h1]

/-- An instance of `set_drive_contract`: with unit 0 selected, selecting unit 1
returns 1 and stores 1. -/
theorem set_drive_contract_witness :
    (__USB_Ioctlv demoConsts demoCollab demoConsts.IOCTL_UMS_SET_DRIVE demoVector 1 0
        (demoState 0 1 0 true false)).1 = ((1 : Nat) : Int) ∧
    (__USB_Ioctlv demoConsts demoCollab demoConsts.IOCTL_UMS_SET_DRIVE demoVector 1 0
        (demoState 0 1 0 true false)).2.current_drive = 1 :=
  (set_drive_contract demoConsts demoConsts_wellFormed demoCollab demoVector 1 0
    (demoState 0 1 0 true false) 1 (by decide)).1 (Or.inr rfl)

/-! ## Open -/

/-- C2: for an OPEN message the loop consults the gating policy and then
acknowledges with one result: the handle `open.resultfd` when the policy allows
the open and the requested path equals the registered device name, `IPC_ENOENT`
in every other case, whatever the gating outcome when the path differs. The
acknowledged result is the supplied handle, whichever handle the caller
supplies, if and only if both conditions hold; for one given handle different
from `IPC_ENOENT`, the result equals it if and only if both conditions hold. -/
theorem open_result {σ : Type} (K : Consts) (E : Collab σ) (rx : Received) (s : State σ)
    (hrx : rx.message ∉ K.sentinels) (hopen : rx.deref.command = K.IOS_OPEN) :
    ∃ ret : Int,
      (main_loop_body K E rx s).trace =
        s.trace ++ [.Stealth_CheckRunningTitle 0, .os_message_queue_ack rx.message ret] ∧
      ((E.Stealth_CheckRunningTitle 0 s.world).1 = 0 ∧ rx.deref.open_device = K.DEVICE_NAME →
        ret = rx.deref.open_resultfd) ∧
      (¬ ((E.Stealth_CheckRunningTitle 0 s.world).1 = 0 ∧
            rx.deref.open_device = K.DEVICE_NAME) → ret = K.IPC_ENOENT) ∧
      (rx.deref.open_device ≠ K.DEVICE_NAME → ret = K.IPC_ENOENT) ∧
      ((∀ fd : Int,
          acks (main_loop_body K E ⟨rx.message, { rx.deref with open_resultfd := fd }⟩ s).trace =
            acks s.trace ++ [(rx.message, fd)]) ↔
        (E.Stealth_CheckRunningTitle 0 s.world).1 = 0 ∧
          rx.deref.open_device = K.DEVICE_NAME) ∧
      (rx.deref.open_resultfd ≠ K.IPC_ENOENT →
        (ret = rx.deref.open_resultfd ↔
          (E.Stealth_CheckRunningTitle 0 s.world).1 = 0 ∧
            rx.deref.open_device = K.DEVICE_NAME)) := by
  have key : ∀ m : ipcmessage, m.command = K.IOS_OPEN →
      (main_loop_body K E ⟨rx.message, m⟩ s).trace =
        s.trace ++ [.Stealth_CheckRunningTitle 0, .os_message_queue_ack rx.message
          (if (E.Stealth_CheckRunningTitle 0 s.world).1 = 0 ∧ m.open_device = K.DEVICE_NAME
            then m.open_resultfd else K.IPC_ENOENT)] := by
    intro m hm
    by_cases hg : (E.Stealth_CheckRunningTitle 0 s.world).1 = 0
    · by_cases hp : m.open_device = K.DEVICE_NAME
      · simp [main_loop_body, callback_not_consumed K E _ s hrx, hm, hg,
          strcmp_eq_zero_iff, hp, State.call]
      · simp [main_loop_body, callback_not_consumed K E _ s hrx, hm, hg,
          strcmp_eq_zero_iff, hp, State.call]
    · simp [main_loop_body, callback_not_consumed K E _ s hrx, hm, hg, State.call]
  have hacks : ∀ (t : List Effect) (r : Int),
      acks (t ++ [.Stealth_CheckRunningTitle 0, .os_message_queue_ack rx.message r]) =
        acks t ++ [(rx.message, r)] := by
    intro t r
    have h1 : t ++ [Effect.Stealth_CheckRunningTitle 0, .os_message_queue_ack rx.message r] =
        (t ++ [Effect.Stealth_CheckRunningTitle 0]) ++ [.os_message_queue_ack rx.message r] := by
      simp
    rw [h1, acks_append_ack, acks_append_of_not_ack t (.Stealth_CheckRunningTitle 0) rfl]
  refine ⟨_, key rx.deref hopen, ?_, ?_, ?_, ?_, ?_⟩
  · intro h
    rw [if_pos h]
  · intro h
    rw [if_neg h]
  · intro h
    rw [if_neg (fun hc => h hc.2)]
  · constructor
    · intro h
      by_contra hc
      have h1 := (h (K.IPC_ENOENT + 1)).symm.trans (congrArg acks
        (key { rx.deref with open_resultfd := K.IPC_ENOENT + 1 } hopen))
      rw [hacks] at h1
      simp [hc] at h1
    · intro h fd
      refine (congrArg acks (key { rx.deref with open_resultfd := fd } hopen)).trans ?_
      rw [hacks]
      simp [h]
  · intro hne
    constructor
    · intro h
      by_contra hc
      rw [if_neg hc] at h
      exact hne h.symm
    · intro h
      rw [if_pos h]

/-- An instance of `open_result`: an OPEN of the path "OTHER" with handle 5,
while the gating policy allows opens. -/
theorem open_result_witness :
    ∃ ret : Int,
      (main_loop_body demoConsts demoCollab
          ⟨0x20000000, demoMessage 1 "OTHER" 5 0⟩ (demoState 0 0 0 true false)).trace =
        [.Stealth_CheckRunningTitle 0, .os_message_queue_ack 0x20000000 ret] ∧
      ret = -6 := by
  obtain ⟨ret, h1, -, -, h4, -, -⟩ := open_result demoConsts demoCollab
    ⟨0x20000000, demoMessage 1 "OTHER" 5 0⟩ (demoState 0 0 0 true false)
    (by decide) (by decide)
  exact ⟨ret, h1, h4 (by decide)⟩

/-! ## Get capacity -/

/-- C3: for the Get-capacity command, when the capacity query succeeds with
sector size `sz` and sector count `n` (both 32-bit), the word at the address in
buffer 0 becomes `sz` and the returned status is `n` as a 32-bit word (the `s32`
with the same bit pattern, equal to `n` itself below `2^31`); when the query
fails, memory is exactly what the query left, and the status is 1. -/
theorem get_capacity_contract {σ : Type} (K : Consts) (hK : K.WellFormed) (E : Collab σ)
    (vector : Nat → ioctlv) (inlen iolen : Nat) (s : State σ) :
    (∀ sz n : Nat, (E.usbstorage_ReadCapacity s.world).1.1 ≠ 0 →
      (E.usbstorage_ReadCapacity s.world).1.2 = (sz, n) → sz < 2 ^ 32 → n < 2 ^ 32 →
        load32 (__USB_Ioctlv K E K.IOCTL_UMS_GET_CAPACITY vector inlen iolen s).2.world.mem
            (vector 0).data = sz ∧
        (__USB_Ioctlv K E K.IOCTL_UMS_GET_CAPACITY vector inlen iolen s).2.world.mem =
          store32 (E.usbstorage_ReadCapacity s.world).2.mem (vector 0).data sz ∧
        (__USB_Ioctlv K E K.IOCTL_UMS_GET_CAPACITY vector inlen iolen s).1 = toS32 n ∧
        (__USB_Ioctlv K E K.IOCTL_UMS_GET_CAPACITY vector inlen iolen s).1 % 2 ^ 32 = n ∧
        (n < 2 ^ 31 →
          (__USB_Ioctlv K E K.IOCTL_UMS_GET_CAPACITY vector inlen iolen s).1 = n)) ∧
    ((E.usbstorage_ReadCapacity s.world).1.1 = 0 →
        (__USB_Ioctlv K E K.IOCTL_UMS_GET_CAPACITY vector inlen iolen s).2.world =
          (E.usbstorage_ReadCapacity s.world).2 ∧
        (__USB_Ioctlv K E K.IOCTL_UMS_GET_CAPACITY vector inlen iolen s).1 = 1 ∧
        (__USB_Ioctlv K E K.IOCTL_UMS_GET_CAPACITY vector inlen iolen s).1 ≠ 0) := by
  rw [ioctlv_capacity_eq K hK E _ vector inlen iolen s rfl]
  constructor
  · intro sz n hok hq hsz hn
    have e1 : (E.usbstorage_ReadCapacity s.world).1.2.1 = sz := by rw [hq]
    have e2 : (E.usbstorage_ReadCapacity s.world).1.2.2 = n := by rw [hq]
    rw [if_pos hok, e1, e2]
    refine ⟨load32_store32 _ _ _ hsz, rfl, rfl, toS32_emod n hn, fun h => toS32_of_lt n h⟩
  · intro hfail
    simp [hfail]

/-- An instance of `get_capacity_contract`: the simulated drive of 2048 sectors
of 512 bytes, plugged in. -/
theorem get_capacity_contract_witness :
    load32 (__USB_Ioctlv demoConsts demoCollab demoConsts.IOCTL_UMS_GET_CAPACITY
        demoVector 0 1 (demoState 0 0 0 true false)).2.world.mem 100 = 512 ∧
    (__USB_Ioctlv demoConsts demoCollab demoConsts.IOCTL_UMS_GET_CAPACITY
        demoVector 0 1 (demoState 0 0 0 true false)).1 = 2048 := by
  have h := (get_capacity_contract demoConsts demoConsts_wellFormed demoCollab demoVector 0 1
    (demoState 0 0 0 true false)).1 512 2048 (by decide) rfl (by decide) (by decide)
  exact ⟨h.1, h.2.2.2.2 (by decide)⟩

/-! ## Coherency bracket -/

/-- C4: for every command code, vector and counts, the effects of one call of
`__USB_Ioctlv` are `InvalidateVector(vector, inlen, iolen)` first,
`FlushVector(vector, inlen, iolen)` last, and between them only storage or
disc-image calls (at most one), none of which is a coherency call. -/
theorem coherency_bracket {σ : Type} (K : Consts) (E : Collab σ) (cmd : Nat)
    (vector : Nat → ioctlv) (inlen iolen : Nat) (s : State σ) :
    ∃ ops : List Effect,
      (__USB_Ioctlv K E cmd vector inlen iolen s).2.trace =
        s.trace ++ [Effect.InvalidateVector vector inlen iolen] ++ ops ++
          [Effect.FlushVector vector inlen iolen] ∧
      ops.length ≤ 1 ∧
      ∀ e ∈ ops, e.isStorageOrDisc = true ∧ e.isInvalidate = false ∧ e.isFlush = false := by
  by_cases c1 : cmd = K.IOCTL_USB_INIT ∨ cmd = K.IOCTL_UMS_INIT
  · refine ⟨[.usbstorage_Startup], ?_, by simp, by simp [Effect.isStorageOrDisc, Effect.isInvalidate, Effect.isFlush]⟩
    simp [__USB_Ioctlv, State.call, c1]
  by_cases c2 : cmd = K.IOCTL_USB_READ ∨ cmd = K.IOCTL_UMS_READ_SECTORS
  · refine ⟨[.usbstorage_ReadSectors (load32 s.world.mem (vector 0).data)
      (load32 s.world.mem (vector 1).data) (vector 2).data], ?_, by simp, by simp [Effect.isStorageOrDisc, Effect.isInvalidate, Effect.isFlush]⟩
    simp [__USB_Ioctlv, State.call, c1, c2]
  by_cases c3 : cmd = K.IOCTL_USB_WRITE ∨ cmd = K.IOCTL_UMS_WRITE_SECTORS
  · refine ⟨[.usbstorage_WriteSectors (load32 s.world.mem (vector 0).data)
      (load32 s.world.mem (vector 1).data) (vector 2).data], ?_, by simp, by simp [Effect.isStorageOrDisc, Effect.isInvalidate, Effect.isFlush]⟩
    simp [__USB_Ioctlv, State.call, c1, c2, c3]
  by_cases c4 : cmd = K.IOCTL_UMS_GET_CAPACITY
  · refine ⟨[.usbstorage_ReadCapacity], ?_, by simp, by simp [Effect.isStorageOrDisc, Effect.isInvalidate, Effect.isFlush]⟩
    subst c4
    by_cases hi : lnot (E.usbstorage_ReadCapacity s.world).1.1 = 0 <;>
      simp [__USB_Ioctlv, State.call, c1, c2, c3, hi]
  by_cases c5 : cmd = K.IOCTL_USB_ISINSERTED
  · refine ⟨[.usbstorage_IsInserted], ?_, by simp, by simp [Effect.isStorageOrDisc, Effect.isInvalidate, Effect.isFlush]⟩
    subst c5
    simp [__USB_Ioctlv, State.call, c1, c2, c3, c4]
  by_cases c6 : cmd = K.IOCTL_USB_UNMOUNT
  · refine ⟨[.usbstorage_Shutdown], ?_, by simp, by simp [Effect.isStorageOrDisc, Effect.isInvalidate, Effect.isFlush]⟩
    subst c6
    simp [__USB_Ioctlv, State.call, c1, c2, c3, c4, c5]
  by_cases c7 : cmd = K.IOCTL_UMS_SET_DRIVE
  · refine ⟨[], ?_, by simp, by simp [Effect.isStorageOrDisc, Effect.isInvalidate, Effect.isFlush]⟩
    subst c7
    by_cases hi : load32 s.world.mem (vector 0).data > 1 <;>
      simp [__USB_Ioctlv, State.call, c1, c2, c3, c4, c5, c6, hi]
  by_cases c8 : cmd = K.IOCTL_WBFS_OPEN_DISC
  · refine ⟨[.WBFS_OpenDisc (vector 0).data], ?_, by simp, by simp [Effect.isStorageOrDisc, Effect.isInvalidate, Effect.isFlush]⟩
    subst c8
    simp [__USB_Ioctlv, State.call, c1, c2, c3, c4, c5, c6, c7]
  by_cases c9 : cmd = K.IOCTL_WBFS_READ_DISC
  · refine ⟨[.WBFS_Read (vector 2).data (load32 s.world.mem (vector 1).data)
      (load32 s.world.mem (vector 0).data)], ?_, by simp, by simp [Effect.isStorageOrDisc, Effect.isInvalidate, Effect.isFlush]⟩
    subst c9
    by_cases hi : (E.WBFS_Read (vector 2).data (load32 s.world.mem (vector 1).data)
        (load32 s.world.mem (vector 0).data) s.world).1 = 0 <;>
      simp [__USB_Ioctlv, State.call, c1, c2, c3, c4, c5, c6, c7, c8, hi]
  exact ⟨[], by simp [__USB_Ioctlv, State.call, c1, c2, c3, c4, c5, c6, c7, c8, c9], by simp, by simp⟩

/-! ## Hardware events -/

/-- C5: a message whose handle is one of the three event values is consumed:
the loop iteration ends in the state `__USB_Callback` leaves, and its only
effect is one notifier call; no acknowledgment, no gating call and no
coherency call (hence no dispatcher call) is made. -/
theorem hardware_event_consumed {σ : Type} (K : Consts) (E : Collab σ) (rx : Received)
    (s : State σ) (h : rx.message ∈ K.sentinels) :
    main_loop_body K E rx s = (__USB_Callback K E rx.message s).2 ∧
    acks (main_loop_body K E rx s).trace = acks s.trace ∧
    ∃ e : Effect,
      (main_loop_body K E rx s).trace = s.trace ++ [e] ∧
      e.isNotifier = true ∧ e.isAck = false ∧ e.isGating = false ∧
      e.isInvalidate = false ∧ e.isFlush = false := by
  have hc := callback_consumed K E rx.message s h
  have hb : main_loop_body K E rx s = (__USB_Callback K E rx.message s).2 := by
    simp [main_loop_body, hc]
  have he := callback_consumed_trace K E rx.message s h
  obtain ⟨e, h1, h2, h3, h4, h5, h6⟩ := he
  refine ⟨hb, ?_, e, by rw [hb, h1], h2, h3, h4, h5, h6⟩
  rw [hb, h1]
  exact acks_append_of_not_ack _ _ h3

/-- An instance of `hardware_event_consumed`: a device-change message produces
no acknowledgment and one call of `USB_DeviceChange` with the value of slot 0. -/
theorem hardware_event_consumed_witness :
    acks (main_loop_body demoConsts demoCollab ⟨0x13700040, demoMessage 7 "" 0 0⟩
        (demoState 0 0 0 true false)).trace = [] ∧
    (main_loop_body demoConsts demoCollab ⟨0x13700040, demoMessage 7 "" 0 0⟩
        (demoState 0 0 0 true false)).trace = [.USB_DeviceChange (-1)] :=
  ⟨(hardware_event_consumed demoConsts demoCollab ⟨0x13700040, demoMessage 7 "" 0 0⟩
      (demoState 0 0 0 true false) (by decide)).2.1, rfl⟩

/-- C6: `__USB_Callback` routes by message value. A device-change message calls
`USB_DeviceChange` with the value of reply slot 0 and returns 0; an attach-finish
message calls `USB_AttachFinish` with the value of slot 1 and returns 0; a
mount-poll message calls `usbstorage_IsInserted`, ignores its result and returns
0; any other value returns -1 with the state untouched. In each case the only
change is the single call and the world that call leaves; the reply slots and
`current_drive` are never changed. -/
theorem callback_router {σ : Type} (K : Consts) (hK : K.WellFormed) (E : Collab σ)
    (message : Nat) (s : State σ) :
    (message = K.MESSAGE_DEVCHANGE →
      __USB_Callback K E message s =
        (0, { s with
              world := E.USB_DeviceChange (s.usbCb 0).result s.world
              trace := s.trace ++ [.USB_DeviceChange (s.usbCb 0).result] })) ∧
    (message = K.MESSAGE_ATTACH →
      __USB_Callback K E message s =
        (0, { s with
              world := E.USB_AttachFinish (s.usbCb 1).result s.world
              trace := s.trace ++ [.USB_AttachFinish (s.usbCb 1).result] })) ∧
    (message = K.MESSAGE_MOUNT →
      __USB_Callback K E message s =
        (0, { s with
              world := (E.usbstorage_IsInserted s.world).2
              trace := s.trace ++ [.usbstorage_IsInserted] })) ∧
    (message ∉ K.sentinels → __USB_Callback K E message s = (-1, s)) ∧
    (__USB_Callback K E message s).2.usbCb = s.usbCb ∧
    (__USB_Callback K E message s).2.current_drive = s.current_drive := by
  obtain ⟨h1, h2⟩ := hK.sentinel
  simp [Consts.sentinels] at h1 h2
  refine ⟨?_, ?_, ?_, callback_not_consumed K E message s, ?_, ?_⟩
  · intro h; subst h; simp [__USB_Callback, State.call]
  · intro h; subst h; simp [__USB_Callback, State.call, h1, h2]
  · intro h; subst h; simp [__USB_Callback, State.call, h1, h2]
  · unfold __USB_Callback; split_ifs <;> rfl
  · unfold __USB_Callback; split_ifs <;> rfl

/-- An instance of `callback_router`: an attach-finish message, with slot 1
holding 0. -/
theorem callback_router_witness :
    (__USB_Callback demoConsts demoCollab 0x13700048 (demoState 1 0 0 true false)).1 = 0 ∧
    (__USB_Callback demoConsts demoCollab 0x13700048 (demoState 1 0 0 true false)).2.trace =
      [.USB_AttachFinish 0] := by
  have h := (callback_router demoConsts demoConsts_wellFormed demoCollab 0x13700048
    (demoState 1 0 0 true false)).2.1 rfl
  rw [h]
  exact ⟨rfl, rfl⟩

/-! ## Unrecognized commands -/

/-- C7: for a command code that is none of the case labels, `__USB_Ioctlv`
returns `IPC_EINVAL`; its only effects are the two coherency calls; the world
(memory included), `current_drive` and the reply slots are unchanged. -/
theorem unrecognized_command {σ : Type} (K : Consts) (E : Collab σ) (cmd : Nat)
    (vector : Nat → ioctlv) (inlen iolen : Nat) (s : State σ) (h : cmd ∉ K.ioctlLabels) :
    (__USB_Ioctlv K E cmd vector inlen iolen s).1 = K.IPC_EINVAL ∧
    (__USB_Ioctlv K E cmd vector inlen iolen s).2.trace =
      s.trace ++ [.InvalidateVector vector inlen iolen, .FlushVector vector inlen iolen] ∧
    (__USB_Ioctlv K E cmd vector inlen iolen s).2.world = s.world ∧
    (__USB_Ioctlv K E cmd vector inlen iolen s).2.current_drive = s.current_drive ∧
    (__USB_Ioctlv K E cmd vector inlen iolen s).2.usbCb = s.usbCb := by
  rw [ioctlv_default_eq K E cmd vector inlen iolen s h]
  simp [bracket]

/-- An instance of `unrecognized_command`: command code 0. -/
theorem unrecognized_command_witness :
    (__USB_Ioctlv demoConsts demoCollab 0 demoVector 2 1 (demoState 1 7 8 true false)).1 = -4 ∧
    (__USB_Ioctlv demoConsts demoCollab 0 demoVector 2 1
        (demoState 1 7 8 true false)).2.current_drive = 1 :=
  have h := unrecognized_command demoConsts demoCollab 0 demoVector 2 1
    (demoState 1 7 8 true false) (by decide)
  ⟨h.1, h.2.2.2.1⟩

/-! ## Storage commands -/

/-- C8: for Initialize, Read sectors, Write sectors, Is inserted and Unmount the
returned status is the inversion of the outcome of the one storage call made
(`usbstorage_Startup`, `usbstorage_ReadSectors`, `usbstorage_WriteSectors`,
`usbstorage_IsInserted`, `usbstorage_Shutdown`): 0 exactly when the outcome is
nonzero, and nonzero (namely 1) exactly when it is 0. Read and Write pass the
word of buffer 0 as sector, the word of buffer 1 as count and the address of
buffer 2 as data buffer. -/
theorem storage_status_inversion {σ : Type} (K : Consts) (hK : K.WellFormed) (E : Collab σ)
    (vector : Nat → ioctlv) (inlen iolen : Nat) (s : State σ) :
    (∀ cmd, cmd = K.IOCTL_USB_INIT ∨ cmd = K.IOCTL_UMS_INIT →
      InvertedStatus (__USB_Ioctlv K E cmd vector inlen iolen s).1
        (E.usbstorage_Startup s.world).1 ∧
      (__USB_Ioctlv K E cmd vector inlen iolen s).2.trace =
        s.trace ++ bracket vector inlen iolen [.usbstorage_Startup]) ∧
    (∀ cmd, cmd = K.IOCTL_USB_READ ∨ cmd = K.IOCTL_UMS_READ_SECTORS →
      InvertedStatus (__USB_Ioctlv K E cmd vector inlen iolen s).1
        (E.usbstorage_ReadSectors (load32 s.world.mem (vector 0).data)
          (load32 s.world.mem (vector 1).data) (vector 2).data s.world).1 ∧
      (__USB_Ioctlv K E cmd vector inlen iolen s).2.trace =
        s.trace ++ bracket vector inlen iolen
          [.usbstorage_ReadSectors (load32 s.world.mem (vector 0).data)
            (load32 s.world.mem (vector 1).data) (vector 2).data] ∧
      (__USB_Ioctlv K E cmd vector inlen iolen s).2.world =
        (E.usbstorage_ReadSectors (load32 s.world.mem (vector 0).data)
          (load32 s.world.mem (vector 1).data) (vector 2).data s.world).2) ∧
    (∀ cmd, cmd = K.IOCTL_USB_WRITE ∨ cmd = K.IOCTL_UMS_WRITE_SECTORS →
      InvertedStatus (__USB_Ioctlv K E cmd vector inlen iolen s).1
        (E.usbstorage_WriteSectors (load32 s.world.mem (vector 0).data)
          (load32 s.world.mem (vector 1).data) (vector 2).data s.world).1 ∧
      (__USB_Ioctlv K E cmd vector inlen iolen s).2.trace =
        s.trace ++ bracket vector inlen iolen
          [.usbstorage_WriteSectors (load32 s.world.mem (vector 0).data)
            (load32 s.world.mem (vector 1).data) (vector 2).data] ∧
      (__USB_Ioctlv K E cmd vector inlen iolen s).2.world =
        (E.usbstorage_WriteSectors (load32 s.world.mem (vector 0).data)
          (load32 s.world.mem (vector 1).data) (vector 2).data s.world).2) ∧
    (InvertedStatus (__USB_Ioctlv K E K.IOCTL_USB_ISINSERTED vector inlen iolen s).1
        (E.usbstorage_IsInserted s.world).1 ∧
      (__USB_Ioctlv K E K.IOCTL_USB_ISINSERTED vector inlen iolen s).2.trace =
        s.trace ++ bracket vector inlen iolen [.usbstorage_IsInserted]) ∧
    (InvertedStatus (__USB_Ioctlv K E K.IOCTL_USB_UNMOUNT vector inlen iolen s).1
        (E.usbstorage_Shutdown s.world).1 ∧
      (__USB_Ioctlv K E K.IOCTL_USB_UNMOUNT vector inlen iolen s).2.trace =
        s.trace ++ bracket vector inlen iolen [.usbstorage_Shutdown]) := by
  refine ⟨?_, ?_, ?_, ?_, ?_⟩
  · intro cmd h
    rw [ioctlv_init_eq K E cmd vector inlen iolen s h]
    exact ⟨invertedStatus_lnot _, rfl⟩
  · intro cmd h
    rw [ioctlv_read_eq K hK E cmd vector inlen iolen s h]
    exact ⟨invertedStatus_lnot _, rfl, rfl⟩
  · intro cmd h
    rw [ioctlv_write_eq K hK E cmd vector inlen iolen s h]
    exact ⟨invertedStatus_lnot _, rfl, rfl⟩
  · rw [ioctlv_isinserted_eq K hK E _ vector inlen iolen s rfl]
    exact ⟨invertedStatus_lnot _, rfl⟩
  · rw [ioctlv_unmount_eq K hK E _ vector inlen iolen s rfl]
    exact ⟨invertedStatus_lnot _, rfl⟩

/-- An instance of `storage_status_inversion`: Read sectors with sector 10 and
count 2 on the plugged-in simulated drive returns 0 after one call of
`usbstorage_ReadSectors 10 2 200`. -/
theorem storage_status_inversion_witness :
    (__USB_Ioctlv demoConsts demoCollab 0xF1 demoVector 2 1
        (demoState 0 10 2 true false)).1 = 0 ∧
    (__USB_Ioctlv demoConsts demoCollab 0xF1 demoVector 2 1
        (demoState 0 10 2 true false)).2.trace =
      [.InvalidateVector demoVector 2 1, .usbstorage_ReadSectors 10 2 200,
        .FlushVector demoVector 2 1] := by
  have h := (storage_status_inversion demoConsts demoConsts_wellFormed demoCollab demoVector 2 1
    (demoState 0 10 2 true false)).2.1 0xF1 (Or.inl rfl)
  exact ⟨h.1.1.mpr (by decide), h.2.1⟩

/-! ## Read disc image -/

/-- C9: the Read-disc-image command calls `WBFS_Read` with the address of buffer
2, the word of buffer 1 as length and the word of buffer 0 as offset, and returns
0 or 0x8000 and nothing else: 0 exactly when `WBFS_Read` returns 0 (success),
0x8000 for every nonzero value. The value 0x8000 is not a status the inverted
storage commands can produce (those are 0 and 1). -/
theorem read_disc_status {σ : Type} (K : Consts) (hK : K.WellFormed) (E : Collab σ)
    (vector : Nat → ioctlv) (inlen iolen : Nat) (s : State σ) :
    ((__USB_Ioctlv K E K.IOCTL_WBFS_READ_DISC vector inlen iolen s).1 = 0 ∨
      (__USB_Ioctlv K E K.IOCTL_WBFS_READ_DISC vector inlen iolen s).1 = 0x8000) ∧
    ((__USB_Ioctlv K E K.IOCTL_WBFS_READ_DISC vector inlen iolen s).1 = 0 ↔
      (E.WBFS_Read (vector 2).data (load32 s.world.mem (vector 1).data)
        (load32 s.world.mem (vector 0).data) s.world).1 = 0) ∧
    ((E.WBFS_Read (vector 2).data (load32 s.world.mem (vector 1).data)
        (load32 s.world.mem (vector 0).data) s.world).1 ≠ 0 →
      (__USB_Ioctlv K E K.IOCTL_WBFS_READ_DISC vector inlen iolen s).1 = 0x8000) ∧
    (__USB_Ioctlv K E K.IOCTL_WBFS_READ_DISC vector inlen iolen s).2.trace =
      s.trace ++ bracket vector inlen iolen
        [.WBFS_Read (vector 2).data (load32 s.world.mem (vector 1).data)
          (load32 s.world.mem (vector 0).data)] ∧
    (0x8000 : Int) ≠ 1 ∧ ∀ x : Int, lnot x ≠ 0x8000 := by
  rw [ioctlv_read_disc_eq K hK E _ vector inlen iolen s rfl]
  refine ⟨?_, ?_, ?_, rfl, by decide, ?_⟩
  · by_cases hq : (E.WBFS_Read (vector 2).data (load32 s.world.mem (vector 1).data)
        (load32 s.world.mem (vector 0).data) s.world).1 = 0 <;> simp [hq]
  · by_cases hq : (E.WBFS_Read (vector 2).data (load32 s.world.mem (vector 1).data)
        (load32 s.world.mem (vector 0).data) s.world).1 = 0 <;> simp [hq]
  · intro hq
    simp [hq]
  · intro x
    unfold lnot
    split <;> decide

/-- An instance of `read_disc_status`: with no drive plugged in the simulated
`WBFS_Read` returns -1 and the command returns 0x8000. -/
theorem read_disc_status_witness :
    (__USB_Ioctlv demoConsts demoCollab demoConsts.IOCTL_WBFS_READ_DISC demoVector 2 1
        (demoState 0 0 64 false false)).1 = 0x8000 :=
  (read_disc_status demoConsts demoConsts_wellFormed demoCollab demoVector 2 1
    (demoState 0 0 64 false false)).2.2.1 (by decide)

/-! ## Close -/

/-- C10: for a CLOSE message the loop makes exactly one call, the acknowledgment
of that message with result 0; the world, `current_drive` and the reply slots are
what they were before, so the selected unit is not reset. -/
theorem close_ack {σ : Type} (K : Consts) (hK : K.WellFormed) (E : Collab σ) (rx : Received)
    (s : State σ) (hrx : rx.message ∉ K.sentinels) (hclose : rx.deref.command = K.IOS_CLOSE) :
    (main_loop_body K E rx s).trace = s.trace ++ [.os_message_queue_ack rx.message 0] ∧
    acks (main_loop_body K E rx s).trace = acks s.trace ++ [(rx.message, 0)] ∧
    (main_loop_body K E rx s).current_drive = s.current_drive ∧
    (main_loop_body K E rx s).usbCb = s.usbCb ∧
    (main_loop_body K E rx s).world = s.world := by
  obtain ⟨h1, h2⟩ := hK.kind
  simp [Consts.kindLabels] at h1 h2
  have hb : main_loop_body K E rx s =
      { s with trace := s.trace ++ [.os_message_queue_ack rx.message 0] } := by
    simp [main_loop_body, callback_not_consumed K E _ s hrx, hclose, h1, h2, State.call]
  rw [hb]
  exact ⟨rfl, acks_append_ack _ _ _, rfl, rfl, rfl⟩

/-- An instance of `close_ack`: a CLOSE while unit 1 is selected. -/
theorem close_ack_witness :
    (main_loop_body demoConsts demoCollab ⟨0x20000000, demoMessage 2 "" 0 0⟩
        (demoState 1 0 0 true false)).trace = [.os_message_queue_ack 0x20000000 0] ∧
    (main_loop_body demoConsts demoCollab ⟨0x20000000, demoMessage 2 "" 0 0⟩
        (demoState 1 0 0 true false)).current_drive = 1 :=
  have h := close_ack demoConsts demoConsts_wellFormed demoCollab
    ⟨0x20000000, demoMessage 2 "" 0 0⟩ (demoState 1 0 0 true false) (by decide) rfl
  ⟨h.1, h.2.2.1⟩

/-! ## Unknown message kinds -/

/-- C13: for a message that is not a hardware event and whose kind is none of
OPEN, CLOSE and vectored I/O, the loop makes exactly one call, the
acknowledgment of that message with `IPC_EINVAL`; the world, `current_drive` and
the reply slots are unchanged. -/
theorem unknown_kind_ack {σ : Type} (K : Consts) (E : Collab σ) (rx : Received) (s : State σ)
    (hrx : rx.message ∉ K.sentinels) (hk : rx.deref.command ∉ K.kindLabels) :
    (main_loop_body K E rx s).trace =
      s.trace ++ [.os_message_queue_ack rx.message K.IPC_EINVAL] ∧
    (main_loop_body K E rx s).world = s.world ∧
    (main_loop_body K E rx s).current_drive = s.current_drive ∧
    (main_loop_body K E rx s).usbCb = s.usbCb := by
  simp [Consts.kindLabels] at hk
  obtain ⟨ho, hc, hv⟩ := hk
  rw [(body_not_consumed K E rx s hrx).2.2.2 ho hc hv]
  simp [spec_result, ho, hc, hv]

/-- An instance of `unknown_kind_ack`: a message of kind 3. -/
theorem unknown_kind_ack_witness :
    (main_loop_body demoConsts demoCollab ⟨0x20000000, demoMessage 3 "" 0 0⟩
        (demoState 0 0 0 true false)).trace = [.os_message_queue_ack 0x20000000 (-4)] :=
  (unknown_kind_ack demoConsts demoCollab ⟨0x20000000, demoMessage 3 "" 0 0⟩
    (demoState 0 0 0 true false) (by decide) (by decide)).1

/-! ## Open disc image -/

/-- C14: the Open-disc-image command calls `WBFS_OpenDisc` once, with the address
in buffer 0, and returns exactly the value `v` that call returns. -/
theorem open_disc_passthrough {σ : Type} (K : Consts) (hK : K.WellFormed) (E : Collab σ)
    (vector : Nat → ioctlv) (inlen iolen : Nat) (s : State σ) (v : Int)
    (hv : (E.WBFS_OpenDisc (vector 0).data s.world).1 = v) :
    (__USB_Ioctlv K E K.IOCTL_WBFS_OPEN_DISC vector inlen iolen s).1 = v ∧
    (__USB_Ioctlv K E K.IOCTL_WBFS_OPEN_DISC vector inlen iolen s).2.trace =
      s.trace ++ bracket vector inlen iolen [.WBFS_OpenDisc (vector 0).data] := by
  rw [ioctlv_open_disc_eq K hK E _ vector inlen iolen s rfl]
  exact ⟨hv, rfl⟩

/-- An instance of `open_disc_passthrough`: with no drive plugged in the
simulated `WBFS_OpenDisc` returns -1, and so does the command. -/
theorem open_disc_passthrough_witness :
    (__USB_Ioctlv demoConsts demoCollab demoConsts.IOCTL_WBFS_OPEN_DISC demoVector 1 0
        (demoState 0 0 0 false false)).1 = -1 :=
  (open_disc_passthrough demoConsts demoConsts_wellFormed demoCollab demoVector 1 0
    (demoState 0 0 0 false false) (-1) (by decide)).1

/-! ## Acknowledgments over a run -/

/-- C15: for every finite sequence of arrivals, requests and hardware events in
any order, the acknowledgments the loop issues are exactly those of `spec_acks`:
one per message that is not a hardware event and none per hardware event, in
order of arrival, each carrying the result of its own message (for a vectored
I/O message the value `__USB_Ioctlv` returns on its command, vector and counts in
the state in which the message was received). The loop processes a sequence
message by message whatever the earlier results were. -/
theorem acknowledgments_in_order {σ : Type} (K : Consts) (E : Collab σ)
    (arrivals : List (Arrival σ)) (s : State σ) :
    acks (main_loop K E arrivals s).trace = acks s.trace ++ spec_acks K E arrivals s ∧
    (spec_acks K E arrivals s).map Prod.fst =
      (arrivals.map (fun a => a.rx.message)).filter (fun m => decide (m ∉ K.sentinels)) ∧
    (∀ (rx : Received) (t : State σ), rx.message ∉ K.sentinels →
      acks (main_loop_body K E rx t).trace =
        acks t.trace ++ [(rx.message, spec_result K E rx t)]) ∧
    (∀ (rx : Received) (t : State σ), rx.message ∈ K.sentinels →
      acks (main_loop_body K E rx t).trace = acks t.trace) ∧
    (K.WellFormed → ∀ (rx : Received) (t : State σ), rx.deref.command = K.IOS_IOCTLV →
      spec_result K E rx t =
        (__USB_Ioctlv K E rx.deref.ioctlv_command rx.deref.ioctlv_vector
          rx.deref.ioctlv_num_in rx.deref.ioctlv_num_io t).1) ∧
    (∀ as bs : List (Arrival σ),
      main_loop K E (as ++ bs) s = main_loop K E bs (main_loop K E as s)) := by
  refine ⟨main_loop_acks K E arrivals s, spec_acks_messages K E arrivals s, ?_, ?_, ?_,
    fun as bs => main_loop_append K E as bs s⟩
  · intro rx t h
    rw [body_acks, if_neg h]
  · intro rx t h
    rw [body_acks, if_pos h, List.append_nil]
  · intro hK rx t hv
    obtain ⟨h1, h2⟩ := hK.kind
    simp [Consts.kindLabels] at h1 h2
    simp [spec_result, hv, h1, h2]

/-- An instance of `acknowledgments_in_order`: a CLOSE, a device-change event, a
Read-disc-image that fails, a Select-unit with unit 1 and a message of unknown
kind give four acknowledgments, in that order; the failure stops nothing. -/
theorem acknowledgments_in_order_witness :
    acks (main_loop demoConsts demoCollab
        [demoArrival 0x20000000 (demoMessage 2 "" 0 0),
          demoArrival 0x13700040 (demoMessage 0 "" 0 0),
          demoArrival 0x20000010 (demoMessage 7 "" 0 0x57465302),
          demoArrival 0x20000020 (demoMessage 7 "" 0 0x554D5305),
          demoArrival 0x20000030 (demoMessage 3 "" 0 0)]
        (demoState 0 1 0 false false)).trace =
      [(0x20000000, 0), (0x20000010, 0x8000), (0x20000020, 1), (0x20000030, -4)] :=
  (acknowledgments_in_order demoConsts demoCollab
    [demoArrival 0x20000000 (demoMessage 2 "" 0 0),
      demoArrival 0x13700040 (demoMessage 0 "" 0 0),
      demoArrival 0x20000010 (demoMessage 7 "" 0 0x57465302),
      demoArrival 0x20000020 (demoMessage 7 "" 0 0x554D5305),
      demoArrival 0x20000030 (demoMessage 3 "" 0 0)]
    (demoState 0 1 0 false false)).1.trans (by decide)

/-! ## Get capacity: status and payload share one channel -/

/-- C17: for the Get-capacity command a failed query returns 1; a successful
query reporting sector count 1 also returns 1, one reporting 0 returns 0, and one
reporting a 32-bit count of `2^31` or more returns the negative number `n - 2^32`
(the count read as a signed 32-bit integer). So the status alone does not tell
failure from success: there are a failing and a succeeding run with the same
return value. -/
theorem capacity_status_ambiguous {σ : Type} (K : Consts) (hK : K.WellFormed) (E : Collab σ)
    (vector : Nat → ioctlv) (inlen iolen : Nat) (s : State σ) :
    ((E.usbstorage_ReadCapacity s.world).1.1 = 0 →
      (__USB_Ioctlv K E K.IOCTL_UMS_GET_CAPACITY vector inlen iolen s).1 = 1) ∧
    ((E.usbstorage_ReadCapacity s.world).1.1 ≠ 0 →
      (E.usbstorage_ReadCapacity s.world).1.2.2 = 1 →
      (__USB_Ioctlv K E K.IOCTL_UMS_GET_CAPACITY vector inlen iolen s).1 = 1) ∧
    ((E.usbstorage_ReadCapacity s.world).1.1 ≠ 0 →
      (E.usbstorage_ReadCapacity s.world).1.2.2 = 0 →
      (__USB_Ioctlv K E K.IOCTL_UMS_GET_CAPACITY vector inlen iolen s).1 = 0) ∧
    ((E.usbstorage_ReadCapacity s.world).1.1 ≠ 0 →
      2 ^ 31 ≤ (E.usbstorage_ReadCapacity s.world).1.2.2 →
      (E.usbstorage_ReadCapacity s.world).1.2.2 < 2 ^ 32 →
      (__USB_Ioctlv K E K.IOCTL_UMS_GET_CAPACITY vector inlen iolen s).1 < 0 ∧
      (__USB_Ioctlv K E K.IOCTL_UMS_GET_CAPACITY vector inlen iolen s).1 =
        ((E.usbstorage_ReadCapacity s.world).1.2.2 : Int) - 2 ^ 32) ∧
    ∃ (F : Collab DemoDev) (s1 s2 : State DemoDev),
      (F.usbstorage_ReadCapacity s1.world).1.1 = 0 ∧
      (F.usbstorage_ReadCapacity s2.world).1.1 ≠ 0 ∧
      (__USB_Ioctlv K F K.IOCTL_UMS_GET_CAPACITY demoVector 0 1 s1).1 =
        (__USB_Ioctlv K F K.IOCTL_UMS_GET_CAPACITY demoVector 0 1 s2).1 := by
  refine ⟨?_, ?_, ?_, ?_, ?_⟩
  · intro hf
    rw [ioctlv_capacity_eq K hK E _ vector inlen iolen s rfl]
    simp [hf]
  · intro hok hn
    rw [ioctlv_capacity_eq K hK E _ vector inlen iolen s rfl, if_pos hok, hn]
    exact toS32_of_lt 1 (by norm_num)
  · intro hok hn
    rw [ioctlv_capacity_eq K hK E _ vector inlen iolen s rfl, if_pos hok, hn]
    exact toS32_of_lt 0 (by norm_num)
  · intro hok h1 h2
    rw [ioctlv_capacity_eq K hK E _ vector inlen iolen s rfl, if_pos hok]
    have hm : (E.usbstorage_ReadCapacity s.world).1.2.2 % 2 ^ 32 =
        (E.usbstorage_ReadCapacity s.world).1.2.2 := Nat.mod_eq_of_lt h2
    have hlt : ¬ (E.usbstorage_ReadCapacity s.world).1.2.2 < 2 ^ 31 := by omega
    show toS32 _ < 0 ∧ toS32 _ = _
    unfold toS32
    rw [hm, if_neg hlt]
    constructor <;> omega
  · refine ⟨demoCollabCount 1, demoState 0 0 0 false false, demoState 0 0 0 true false,
      by decide, by decide, ?_⟩
    rw [ioctlv_capacity_eq K hK _ _ demoVector 0 1 _ rfl,
      ioctlv_capacity_eq K hK _ _ demoVector 0 1 _ rfl]
    have h1 : ((demoCollabCount 1).usbstorage_ReadCapacity
        (demoState 0 0 0 false false).world).1.1 = 0 := by decide
    have h2 : ((demoCollabCount 1).usbstorage_ReadCapacity
        (demoState 0 0 0 true false).world).1.1 ≠ 0 := by decide
    rw [if_neg (not_not.mpr h1), if_pos h2]
    exact (toS32_of_lt 1 (by norm_num)).symm

/-- An instance of `capacity_status_ambiguous`: a plugged-in simulated drive
reporting `2^31` sectors makes Get-capacity return `-2^31`. -/
theorem capacity_status_ambiguous_witness :
    (__USB_Ioctlv demoConsts (demoCollabCount (2 ^ 31)) demoConsts.IOCTL_UMS_GET_CAPACITY
        demoVector 0 1 (demoState 0 0 0 true false)).1 = -2147483648 := by
  have h := (capacity_status_ambiguous demoConsts demoConsts_wellFormed
    (demoCollabCount (2 ^ 31)) demoVector 0 1 (demoState 0 0 0 true false)).2.2.2.1
    (by decide) (by decide) (by decide)
  rw [h.2]
  rfl

/-! ## Declared buffer counts -/

/-- C16 (as amended): the declared counts are passed to `InvalidateVector` and
`FlushVector` and used nowhere else. Two calls of `__USB_Ioctlv` that differ
only in the counts, and whose `InvalidateVector` calls leave the same world,
return the same status, make the same storage or disc-image calls with the same
arguments, and reach the same world (memory, with `current_drive` and the reply
slots in it, and device state) before the flush; each then ends with its own
`FlushVector` call on that world. -/
theorem counts_reach_only_coherency {σ : Type} (K : Consts) (L : Layout) (E : Collab σ)
    (C : Coherency σ) (cmd : Nat) (vector : Nat → ioctlv) (m : Machine σ)
    (inlen iolen inlen2 iolen2 : Nat)
    (h : C.InvalidateVector vector inlen iolen m.world =
      C.InvalidateVector vector inlen2 iolen2 m.world) :
    ∃ (ret : Int) (w : World σ) (ops : List Effect),
      (∀ e ∈ ops, e.isStorageOrDisc = true) ∧
      Addr.__USB_Ioctlv K L E C cmd vector inlen iolen m =
        (ret, { world := C.FlushVector vector inlen iolen w
                trace := m.trace ++ bracket vector inlen iolen ops }) ∧
      Addr.__USB_Ioctlv K L E C cmd vector inlen2 iolen2 m =
        (ret, { world := C.FlushVector vector inlen2 iolen2 w
                trace := m.trace ++ bracket vector inlen2 iolen2 ops }) := by
  by_cases c1 : cmd = K.IOCTL_USB_INIT ∨ cmd = K.IOCTL_UMS_INIT
  · refine ⟨(Addr.__USB_Ioctlv K L E C cmd vector inlen iolen m).1,
      (E.usbstorage_Startup (C.InvalidateVector vector inlen iolen m.world)).2,
      [.usbstorage_Startup], by simp [Effect.isStorageOrDisc], ?_, ?_⟩
    all_goals simp [Addr.__USB_Ioctlv, Machine.call, bracket, ← h, c1]
  by_cases c2 : cmd = K.IOCTL_USB_READ ∨ cmd = K.IOCTL_UMS_READ_SECTORS
  · refine ⟨(Addr.__USB_Ioctlv K L E C cmd vector inlen iolen m).1,
      (E.usbstorage_ReadSectors (load32 (C.InvalidateVector vector inlen iolen m.world).mem (vector 0).data)
        (load32 (C.InvalidateVector vector inlen iolen m.world).mem (vector 1).data) (vector 2).data (C.InvalidateVector vector inlen iolen m.world)).2,
      [.usbstorage_ReadSectors (load32 (C.InvalidateVector vector inlen iolen m.world).mem (vector 0).data)
        (load32 (C.InvalidateVector vector inlen iolen m.world).mem (vector 1).data) (vector 2).data], by simp [Effect.isStorageOrDisc], ?_, ?_⟩
    all_goals simp [Addr.__USB_Ioctlv, Machine.call, bracket, ← h, c1, c2]
  by_cases c3 : cmd = K.IOCTL_USB_WRITE ∨ cmd = K.IOCTL_UMS_WRITE_SECTORS
  · refine ⟨(Addr.__USB_Ioctlv K L E C cmd vector inlen iolen m).1,
      (E.usbstorage_WriteSectors (load32 (C.InvalidateVector vector inlen iolen m.world).mem (vector 0).data)
        (load32 (C.InvalidateVector vector inlen iolen m.world).mem (vector 1).data) (vector 2).data (C.InvalidateVector vector inlen iolen m.world)).2,
      [.usbstorage_WriteSectors (load32 (C.InvalidateVector vector inlen iolen m.world).mem (vector 0).data)
        (load32 (C.InvalidateVector vector inlen iolen m.world).mem (vector 1).data) (vector 2).data], by simp [Effect.isStorageOrDisc], ?_, ?_⟩
    all_goals simp [Addr.__USB_Ioctlv, Machine.call, bracket, ← h, c1, c2, c3]
  by_cases c4 : cmd = K.IOCTL_UMS_GET_CAPACITY
  · subst c4
    refine ⟨(Addr.__USB_Ioctlv K L E C K.IOCTL_UMS_GET_CAPACITY vector inlen iolen m).1,
      (if lnot (E.usbstorage_ReadCapacity (C.InvalidateVector vector inlen iolen m.world)).1.1 = 0 then
        ⟨store32 (E.usbstorage_ReadCapacity (C.InvalidateVector vector inlen iolen m.world)).2.mem (vector 0).data
          (E.usbstorage_ReadCapacity (C.InvalidateVector vector inlen iolen m.world)).1.2.1,
          (E.usbstorage_ReadCapacity (C.InvalidateVector vector inlen iolen m.world)).2.dev⟩
      else (E.usbstorage_ReadCapacity (C.InvalidateVector vector inlen iolen m.world)).2),
      [.usbstorage_ReadCapacity], by simp [Effect.isStorageOrDisc], ?_, ?_⟩
    all_goals
      by_cases hi : lnot (E.usbstorage_ReadCapacity (C.InvalidateVector vector inlen iolen m.world)).1.1 = 0 <;>
        simp [Addr.__USB_Ioctlv, Machine.call, bracket, ← h, c1, c2, c3, hi]
  by_cases c5 : cmd = K.IOCTL_USB_ISINSERTED
  · subst c5
    refine ⟨(Addr.__USB_Ioctlv K L E C K.IOCTL_USB_ISINSERTED vector inlen iolen m).1,
      (E.usbstorage_IsInserted (C.InvalidateVector vector inlen iolen m.world)).2,
      [.usbstorage_IsInserted], by simp [Effect.isStorageOrDisc], ?_, ?_⟩
    all_goals simp [Addr.__USB_Ioctlv, Machine.call, bracket, ← h, c1, c2, c3, c4]
  by_cases c6 : cmd = K.IOCTL_USB_UNMOUNT
  · subst c6
    refine ⟨(Addr.__USB_Ioctlv K L E C K.IOCTL_USB_UNMOUNT vector inlen iolen m).1,
      (E.usbstorage_Shutdown (C.InvalidateVector vector inlen iolen m.world)).2,
      [.usbstorage_Shutdown], by simp [Effect.isStorageOrDisc], ?_, ?_⟩
    all_goals simp [Addr.__USB_Ioctlv, Machine.call, bracket, ← h, c1, c2, c3, c4, c5]
  by_cases c7 : cmd = K.IOCTL_UMS_SET_DRIVE
  · subst c7
    refine ⟨(Addr.__USB_Ioctlv K L E C K.IOCTL_UMS_SET_DRIVE vector inlen iolen m).1,
      (if (load32 (C.InvalidateVector vector inlen iolen m.world).mem (vector 0).data) > 1 then (C.InvalidateVector vector inlen iolen m.world)
      else ⟨store32 (C.InvalidateVector vector inlen iolen m.world).mem L.current_drive
        (load32 (C.InvalidateVector vector inlen iolen m.world).mem (vector 0).data), (C.InvalidateVector vector inlen iolen m.world).dev⟩),
      [], by simp [Effect.isStorageOrDisc], ?_, ?_⟩
    all_goals
      by_cases hi : (load32 (C.InvalidateVector vector inlen iolen m.world).mem (vector 0).data) > 1 <;>
        simp [Addr.__USB_Ioctlv, Machine.call, bracket, ← h, c1, c2, c3, c4, c5, c6, hi]
  by_cases c8 : cmd = K.IOCTL_WBFS_OPEN_DISC
  · subst c8
    refine ⟨(Addr.__USB_Ioctlv K L E C K.IOCTL_WBFS_OPEN_DISC vector inlen iolen m).1,
      (E.WBFS_OpenDisc (vector 0).data (C.InvalidateVector vector inlen iolen m.world)).2,
      [.WBFS_OpenDisc (vector 0).data], by simp [Effect.isStorageOrDisc], ?_, ?_⟩
    all_goals simp [Addr.__USB_Ioctlv, Machine.call, bracket, ← h, c1, c2, c3, c4, c5, c6, c7]
  by_cases c9 : cmd = K.IOCTL_WBFS_READ_DISC
  · subst c9
    refine ⟨(Addr.__USB_Ioctlv K L E C K.IOCTL_WBFS_READ_DISC vector inlen iolen m).1,
      (E.WBFS_Read (vector 2).data (load32 (C.InvalidateVector vector inlen iolen m.world).mem (vector 1).data)
        (load32 (C.InvalidateVector vector inlen iolen m.world).mem (vector 0).data) (C.InvalidateVector vector inlen iolen m.world)).2,
      [.WBFS_Read (vector 2).data (load32 (C.InvalidateVector vector inlen iolen m.world).mem (vector 1).data)
        (load32 (C.InvalidateVector vector inlen iolen m.world).mem (vector 0).data)], by simp [Effect.isStorageOrDisc], ?_, ?_⟩
    all_goals
      by_cases hi : (E.WBFS_Read (vector 2).data (load32 (C.InvalidateVector vector inlen iolen m.world).mem (vector 1).data)
        (load32 (C.InvalidateVector vector inlen iolen m.world).mem (vector 0).data) (C.InvalidateVector vector inlen iolen m.world)).1 = 0 <;>
        simp [Addr.__USB_Ioctlv, Machine.call, bracket, ← h, c1, c2, c3, c4, c5, c6, c7, c8, hi]
  refine ⟨K.IPC_EINVAL, (C.InvalidateVector vector inlen iolen m.world), [], by simp, ?_, ?_⟩
  all_goals simp [Addr.__USB_Ioctlv, Machine.call, bracket, ← h, c1, c2, c3, c4, c5, c6, c7, c8, c9]

/-- An instance of `counts_reach_only_coherency`: with coherency calls that
change nothing, Select-unit with counts (1, 0) and with counts (0, 0). -/
theorem counts_reach_only_coherency_witness :
    ∃ (ret : Int) (w : World DemoDev) (ops : List Effect),
      (∀ e ∈ ops, e.isStorageOrDisc = true) ∧
      Addr.__USB_Ioctlv demoConsts demoLayout demoCollab demoCoherency 0x554D5305 demoVector
          1 0 (demoMachine 0 1 0 true) =
        (ret, { world := demoCoherency.FlushVector demoVector 1 0 w
                trace := bracket demoVector 1 0 ops }) ∧
      Addr.__USB_Ioctlv demoConsts demoLayout demoCollab demoCoherency 0x554D5305 demoVector
          0 0 (demoMachine 0 1 0 true) =
        (ret, { world := demoCoherency.FlushVector demoVector 0 0 w
                trace := bracket demoVector 0 0 ops }) :=
  counts_reach_only_coherency demoConsts demoLayout demoCollab demoCoherency 0x554D5305
    demoVector (demoMachine 0 1 0 true) 1 0 0 0 rfl

/-- C16 (as stated) fails: with a cache that `InvalidateVector` refreshes only
for the declared buffers, Select-unit on the same machine and vector returns 1
and selects unit 1 when the counts are (1, 0), and returns -1 and leaves unit 0
when they are (0, 0). -/
theorem counts_change_status_counterexample :
    (Addr.__USB_Ioctlv demoConsts demoLayout demoCollab demoCache 0x554D5305 demoVector
        1 0 demoStale).1 = 1 ∧
    (Addr.__USB_Ioctlv demoConsts demoLayout demoCollab demoCache 0x554D5305 demoVector
        0 0 demoStale).1 = -1 ∧
    (Addr.__USB_Ioctlv demoConsts demoLayout demoCollab demoCache 0x554D5305 demoVector
        1 0 demoStale).2.current_drive demoLayout = 1 ∧
    (Addr.__USB_Ioctlv demoConsts demoLayout demoCollab demoCache 0x554D5305 demoVector
        0 0 demoStale).2.current_drive demoLayout = 0 := by
  decide

/-! ## The selected logical unit -/

end UsbModule
